import Mathlib

/-!
Verification of the Emerald's Killfeed stats aggregation and embed factory:
a shallow embedding of `src/bot/cogs/stats.py` and
`src/bot/utils/embed_factory.py`.

Conventions of the embedding:
* MongoDB documents of the `pvp_data` collection are modelled as `PvpSummary`
  records, documents of `kill_events` as `KillEvent` records; a `find(query)`
  call on a collection is modelled as `List.filter` with the query's
  conjunction of equality filters, the cursor yielding the records in list
  order.
* Python `int` counters are `Nat` (they only ever accumulate non-negative
  stored counters), Python `float` quantities (distances, KDR) are `ℚ`:
  the claims under study are about which formula is computed, not about
  rounding of IEEE operations.
* Python dictionaries used as tallies (`weapon_counts`, `kills_against`,
  `deaths_to`) are insertion-ordered association lists `List (String × Nat)`,
  matching CPython's insertion-ordered dicts; `d[k] = d.get(k, 0) + 1` is
  `tallyAdd`, and `max(d.keys(), key=lambda x: d[x])` is `argmaxFirst`
  (Python's `max` keeps the earliest element among ties, as does the fold
  below).
* A missing optional string field retrieved with `.get(...)` and then tested
  for truthiness is modelled as the empty string (both `None` and `""` are
  falsy and treated identically by the code paths modelled here).
-/

/-- A document of the `pvp_data` collection: per-(guild, character, server)
cumulative totals, read by `get_player_combined_stats` (stats.py lines
101-116) and searched by `resolve_player` (lines 50-58). -/
structure PvpSummary where
  guild_id : Int
  player_name : String
  server_id : String
  kills : Nat
  deaths : Nat
  suicides : Nat
  best_streak : Nat
  personal_best_distance : ℚ
  deriving DecidableEq, Repr

/-- A document of the `kill_events` collection (stats.py lines 164-170 and
198-221).  `victim` and `killer` are strings, with `""` standing for a
missing/falsy value (see module conventions). -/
structure KillEvent where
  guild_id : Int
  server_id : String
  killer : String
  victim : String
  weapon : String
  is_suicide : Bool
  deriving DecidableEq, Repr

/-- The `combined_stats` dictionary built by `get_player_combined_stats`
(stats.py lines 67-80).  The Python code stores `rival` and `rival_kills`
as two keys that are only ever written together (lines 225-226); they are
modelled as one optional pair, and likewise for `nemesis`/`nemesis_deaths`. -/
structure CombinedStats where
  kills : Nat
  deaths : Nat
  suicides : Nat
  kdr : ℚ
  best_streak : Nat
  current_streak : Nat
  personal_best_distance : ℚ
  servers_played : Nat
  favorite_weapon : Option String
  weapon_stats : List (String × Nat)
  rival : Option (String × Nat)
  nemesis : Option (String × Nat)
  deriving DecidableEq, Repr

/-- The initial `combined_stats` dictionary ("safe defaults", stats.py lines
67-80). -/
def initialStats : CombinedStats :=
  { kills := 0
    deaths := 0
    suicides := 0
    kdr := 0
    best_streak := 0
    current_streak := 0
    personal_best_distance := 0
    servers_played := 0
    favorite_weapon := none
    weapon_stats := []
    rival := none
    nemesis := none }

/-- Whether a record's `server_id` passes the optional server filter
(stats.py lines 96-97: the `server_id` key is added to the query only when a
server filter is given). -/
def serverOk (sid : Option String) (s : String) : Bool :=
  match sid with
  | none => true
  | some x => s == x

/-- `self.bot.db_manager.pvp_data.find(query)` with the query of stats.py
lines 90-97: equality on `guild_id` and `player_name`, plus the optional
`server_id` filter. -/
def findSummaries (pvp : List PvpSummary) (gid : Int) (ch : String)
    (sid : Option String) : List PvpSummary :=
  pvp.filter (fun s => s.guild_id == gid && s.player_name == ch && serverOk sid s.server_id)

/-- One iteration of the `async for server_stats in cursor` body (stats.py
lines 106-116): add `kills`, `deaths`, `suicides`; take running maxima of
`personal_best_distance` and `best_streak` (written with the source's
strict-greater tests); count one server per record. -/
def accumRecord (acc : CombinedStats) (s : PvpSummary) : CombinedStats :=
  { acc with
    kills := acc.kills + s.kills
    deaths := acc.deaths + s.deaths
    suicides := acc.suicides + s.suicides
    personal_best_distance :=
      if s.personal_best_distance > acc.personal_best_distance then
        s.personal_best_distance
      else acc.personal_best_distance
    servers_played := acc.servers_played + 1
    best_streak :=
      if s.best_streak > acc.best_streak then s.best_streak else acc.best_streak }

/-- Processing of one character of the `for character in player_characters`
loop (stats.py lines 88-116): fetch the character's summaries and fold the
per-record accumulation over them. -/
def accumChar (pvp : List PvpSummary) (gid : Int) (sid : Option String)
    (acc : CombinedStats) (ch : String) : CombinedStats :=
  (findSummaries pvp gid ch sid).foldl accumRecord acc

/-- The whole counter-accumulation loop of stats.py lines 88-116, starting
from the zeroed `combined_stats`. -/
def accumBase (pvp : List PvpSummary) (gid : Int) (chars : List String)
    (sid : Option String) : CombinedStats :=
  chars.foldl (accumChar pvp gid sid) initialStats

/-- `d[k] = d.get(k, 0) + 1` on an insertion-ordered dict: bump the value at
the first occurrence of key `k`, or append `(k, 1)`. -/
def tallyAdd (m : List (String × Nat)) (k : String) : List (String × Nat) :=
  match m with
  | [] => [(k, 1)]
  | p :: ps => if p.1 = k then (p.1, p.2 + 1) :: ps else p :: tallyAdd ps k

/-- `max(d.keys(), key=lambda x: d[x])` paired with the value `d[max key]`:
the first entry attaining the maximal count (Python's `max` only replaces
the current best on a strictly greater key). -/
def argmaxFirst : List (String × Nat) → Option (String × Nat)
  | [] => none
  | p :: ps => some (ps.foldl (fun best q => if q.2 > best.2 then q else best) p)

/-- The three reserved suicide/fall weapon identifiers skipped by the weapon
tally (stats.py line 169). -/
def suicideWeapons : List String := ["Menu Suicide", "Suicide", "Falling"]

/-- `kill_events.find(query)` for the killer-side query of stats.py lines
154-162 and 188-196: equality on `guild_id` and `killer`, `is_suicide`
false, optional server filter. -/
def findKillsBy (events : List KillEvent) (gid : Int) (ch : String)
    (sid : Option String) : List KillEvent :=
  events.filter (fun e =>
    e.guild_id == gid && e.killer == ch && e.is_suicide == false && serverOk sid e.server_id)

/-- `kill_events.find(query)` for the victim-side query of stats.py lines
206-214: equality on `guild_id` and `victim`, `is_suicide` false, optional
server filter. -/
def findDeathsOf (events : List KillEvent) (gid : Int) (ch : String)
    (sid : Option String) : List KillEvent :=
  events.filter (fun e =>
    e.guild_id == gid && e.victim == ch && e.is_suicide == false && serverOk sid e.server_id)

/-- The `weapon_counts` tally of `_calculate_weapon_stats` (stats.py lines
151-170): for each character, over the non-suicide kill events of that
character, count each weapon unless it is one of the reserved suicide/fall
identifiers. -/
def weaponCounts (events : List KillEvent) (gid : Int) (chars : List String)
    (sid : Option String) : List (String × Nat) :=
  chars.foldl (fun m ch =>
    (findKillsBy events gid ch sid).foldl (fun m e =>
      if e.weapon ∈ suicideWeapons then m else tallyAdd m e.weapon) m) []

/-- The `kills_against` tally of `_calculate_rivals_nemesis` (stats.py lines
183-203): victims of the player's non-suicide kills, skipping falsy victims
and victims that are among the player's own linked characters. -/
def killsAgainst (events : List KillEvent) (gid : Int) (chars : List String)
    (sid : Option String) : List (String × Nat) :=
  chars.foldl (fun m ch =>
    (findKillsBy events gid ch sid).foldl (fun m e =>
      if e.victim ≠ "" ∧ e.victim ∉ chars then tallyAdd m e.victim else m) m) []

/-- The `deaths_to` tally of `_calculate_rivals_nemesis` (stats.py lines
184, 205-221): killers of the player's characters in non-suicide events,
skipping falsy killers and the player's own characters. -/
def deathsTo (events : List KillEvent) (gid : Int) (chars : List String)
    (sid : Option String) : List (String × Nat) :=
  chars.foldl (fun m ch =>
    (findDeathsOf events gid ch sid).foldl (fun m e =>
      if e.killer ≠ "" ∧ e.killer ∉ chars then tallyAdd m e.killer else m) m) []

/-- `get_player_combined_stats` (stats.py lines 64-145) on well-typed inputs:
empty character list returns the zeroed defaults (lines 83-85); otherwise the
counter accumulation, the KDR computation (lines 122-126), and the weapon-
and rival/nemesis sub-computations (which, like the source's lines 172-174
and 224-230, only write their fields when their tally is non-empty). -/
def get_player_combined_stats (pvp : List PvpSummary) (events : List KillEvent)
    (gid : Int) (chars : List String) (sid : Option String) : CombinedStats :=
  if chars.isEmpty then initialStats
  else
    let base := accumBase pvp gid chars sid
    let withKdr :=
      { base with
        kdr := if base.deaths > 0 then (base.kills : ℚ) / (base.deaths : ℚ)
               else (base.kills : ℚ) }
    let wc := weaponCounts events gid chars sid
    let afterWeapons :=
      if wc.isEmpty then withKdr
      else { withKdr with
               favorite_weapon := (argmaxFirst wc).map Prod.fst
               weapon_stats := wc }
    let ka := killsAgainst events gid chars sid
    let afterRival :=
      if ka.isEmpty then afterWeapons
      else { afterWeapons with rival := argmaxFirst ka }
    let dt := deathsTo events gid chars sid
    if dt.isEmpty then afterRival
    else { afterRival with nemesis := argmaxFirst dt }

/-! ## Field characterisations of the accumulation loop -/

theorem accumRecord_untouched (a : CombinedStats) (s : PvpSummary) :
    (accumRecord a s).kdr = a.kdr ∧ (accumRecord a s).current_streak = a.current_streak ∧
    (accumRecord a s).favorite_weapon = a.favorite_weapon ∧
    (accumRecord a s).weapon_stats = a.weapon_stats ∧
    (accumRecord a s).rival = a.rival ∧ (accumRecord a s).nemesis = a.nemesis := by
  simp [accumRecord]

theorem foldl_accumRecord_untouched (l : List PvpSummary) (a : CombinedStats) :
    (l.foldl accumRecord a).kdr = a.kdr ∧
    (l.foldl accumRecord a).current_streak = a.current_streak ∧
    (l.foldl accumRecord a).favorite_weapon = a.favorite_weapon ∧
    (l.foldl accumRecord a).weapon_stats = a.weapon_stats ∧
    (l.foldl accumRecord a).rival = a.rival ∧
    (l.foldl accumRecord a).nemesis = a.nemesis := by
  induction l generalizing a with
  | nil => simp
  | cons s t ih => simpa [accumRecord] using ih (accumRecord a s)

theorem accumBase_untouched (pvp : List PvpSummary) (gid : Int) (chars : List String)
    (sid : Option String) :
    (accumBase pvp gid chars sid).kdr = 0 ∧
    (accumBase pvp gid chars sid).current_streak = 0 ∧
    (accumBase pvp gid chars sid).favorite_weapon = none ∧
    (accumBase pvp gid chars sid).weapon_stats = [] ∧
    (accumBase pvp gid chars sid).rival = none ∧
    (accumBase pvp gid chars sid).nemesis = none := by
  have key : ∀ (cs : List String) (a : CombinedStats),
      (cs.foldl (accumChar pvp gid sid) a).kdr = a.kdr ∧
      (cs.foldl (accumChar pvp gid sid) a).current_streak = a.current_streak ∧
      (cs.foldl (accumChar pvp gid sid) a).favorite_weapon = a.favorite_weapon ∧
      (cs.foldl (accumChar pvp gid sid) a).weapon_stats = a.weapon_stats ∧
      (cs.foldl (accumChar pvp gid sid) a).rival = a.rival ∧
      (cs.foldl (accumChar pvp gid sid) a).nemesis = a.nemesis := by
    intro cs
    induction cs with
    | nil => intro a; simp
    | cons c t ih =>
      intro a
      have h1 := foldl_accumRecord_untouched (findSummaries pvp gid c sid) a
      have h2 := ih (accumChar pvp gid sid a c)
      simp only [List.foldl_cons]
      exact ⟨h2.1.trans h1.1, h2.2.1.trans h1.2.1, h2.2.2.1.trans h1.2.2.1,
        h2.2.2.2.1.trans h1.2.2.2.1, h2.2.2.2.2.1.trans h1.2.2.2.2.1,
        h2.2.2.2.2.2.trans h1.2.2.2.2.2⟩
  exact key chars initialStats

theorem foldl_accumRecord_kills (l : List PvpSummary) (a : CombinedStats) :
    (l.foldl accumRecord a).kills = a.kills + (l.map PvpSummary.kills).sum := by
  induction l generalizing a with
  | nil => simp
  | cons s t ih =>
    simp only [List.foldl_cons, List.map_cons, List.sum_cons]
    rw [ih (accumRecord a s)]
    simp [accumRecord, Nat.add_assoc]

theorem foldl_accumRecord_deaths (l : List PvpSummary) (a : CombinedStats) :
    (l.foldl accumRecord a).deaths = a.deaths + (l.map PvpSummary.deaths).sum := by
  induction l generalizing a with
  | nil => simp
  | cons s t ih =>
    simp only [List.foldl_cons, List.map_cons, List.sum_cons]
    rw [ih (accumRecord a s)]
    simp [accumRecord, Nat.add_assoc]

theorem foldl_accumRecord_suicides (l : List PvpSummary) (a : CombinedStats) :
    (l.foldl accumRecord a).suicides = a.suicides + (l.map PvpSummary.suicides).sum := by
  induction l generalizing a with
  | nil => simp
  | cons s t ih =>
    simp only [List.foldl_cons, List.map_cons, List.sum_cons]
    rw [ih (accumRecord a s)]
    simp [accumRecord, Nat.add_assoc]

theorem foldl_accumRecord_servers (l : List PvpSummary) (a : CombinedStats) :
    (l.foldl accumRecord a).servers_played = a.servers_played + l.length := by
  induction l generalizing a with
  | nil => simp
  | cons s t ih =>
    simp only [List.foldl_cons]
    rw [ih (accumRecord a s)]
    simp [accumRecord]
    omega

/-- The per-character summary count, summed over characters: the closed form
of `servers_played`. -/
def summaryCount (pvp : List PvpSummary) (gid : Int) (chars : List String)
    (sid : Option String) : Nat :=
  (chars.map (fun ch => (findSummaries pvp gid ch sid).length)).sum

theorem accumBase_servers (pvp : List PvpSummary) (gid : Int) (chars : List String)
    (sid : Option String) :
    (accumBase pvp gid chars sid).servers_played = summaryCount pvp gid chars sid := by
  have key : ∀ (cs : List String) (a : CombinedStats),
      (cs.foldl (accumChar pvp gid sid) a).servers_played =
        a.servers_played + (cs.map (fun ch => (findSummaries pvp gid ch sid).length)).sum := by
    intro cs
    induction cs with
    | nil => intro a; simp
    | cons c t ih =>
      intro a
      simp only [List.foldl_cons, List.map_cons, List.sum_cons]
      rw [ih, accumChar, foldl_accumRecord_servers]
      omega
  simpa [summaryCount, accumBase, initialStats] using key chars initialStats

theorem accumBase_kills (pvp : List PvpSummary) (gid : Int) (chars : List String)
    (sid : Option String) :
    (accumBase pvp gid chars sid).kills =
      (chars.map (fun ch => ((findSummaries pvp gid ch sid).map PvpSummary.kills).sum)).sum := by
  have key : ∀ (cs : List String) (a : CombinedStats),
      (cs.foldl (accumChar pvp gid sid) a).kills =
        a.kills + (cs.map (fun ch => ((findSummaries pvp gid ch sid).map PvpSummary.kills).sum)).sum := by
    intro cs
    induction cs with
    | nil => intro a; simp
    | cons c t ih =>
      intro a
      simp only [List.foldl_cons, List.map_cons, List.sum_cons]
      rw [ih, accumChar, foldl_accumRecord_kills]
      omega
  simpa [accumBase, initialStats] using key chars initialStats

theorem if_gt_eq_max {α : Type} [LinearOrder α] (x y : α) :
    (if y > x then y else x) = max x y := by
  split
  · exact (max_eq_right (le_of_lt (by assumption))).symm
  · exact (max_eq_left (le_of_not_lt (by assumption))).symm

/-- Processing two summary records in either order yields the same
`combined_stats`: sums commute and running maxima commute. -/
theorem max_rcomm {α : Type} [LinearOrder α] (x u v : α) :
    max (max x u) v = max (max x v) u := by
  rw [max_assoc, max_comm u v, ← max_assoc]

theorem accumRecord_rcomm (a : CombinedStats) (s t : PvpSummary) :
    accumRecord (accumRecord a s) t = accumRecord (accumRecord a t) s := by
  simp only [accumRecord, if_gt_eq_max]
  congr 1 <;> first
    | omega
    | apply max_rcomm

theorem foldl_accumRecord_perm {l1 l2 : List PvpSummary} (h : l1.Perm l2) :
    ∀ a : CombinedStats, l1.foldl accumRecord a = l2.foldl accumRecord a := by
  induction h with
  | nil => intro a; rfl
  | cons x _ ih => intro a; simp only [List.foldl_cons]; exact ih _
  | swap x y l => intro a; simp only [List.foldl_cons]; rw [accumRecord_rcomm]
  | trans _ _ ih1 ih2 => intro a; rw [ih1, ih2]

theorem accumBase_perm {pvp1 pvp2 : List PvpSummary} (h : pvp1.Perm pvp2) (gid : Int)
    (chars : List String) (sid : Option String) :
    accumBase pvp1 gid chars sid = accumBase pvp2 gid chars sid := by
  have hchar : accumChar pvp1 gid sid = accumChar pvp2 gid sid := by
    funext a ch
    exact foldl_accumRecord_perm (h.filter _) a
  simp only [accumBase, hchar]

/-- Characterisation of the numeric fields of `get_player_combined_stats` on
a non-empty character list: they are the fields of the counter accumulation,
and `kdr` is the guarded division of stats.py lines 122-126 (the weapon and
rival/nemesis updates touch no numeric field). -/
theorem gpcs_core (pvp : List PvpSummary) (events : List KillEvent) (gid : Int)
    (c : String) (cs : List String) (sid : Option String) :
    (get_player_combined_stats pvp events gid (c :: cs) sid).kills =
      (accumBase pvp gid (c :: cs) sid).kills ∧
    (get_player_combined_stats pvp events gid (c :: cs) sid).deaths =
      (accumBase pvp gid (c :: cs) sid).deaths ∧
    (get_player_combined_stats pvp events gid (c :: cs) sid).suicides =
      (accumBase pvp gid (c :: cs) sid).suicides ∧
    (get_player_combined_stats pvp events gid (c :: cs) sid).best_streak =
      (accumBase pvp gid (c :: cs) sid).best_streak ∧
    (get_player_combined_stats pvp events gid (c :: cs) sid).personal_best_distance =
      (accumBase pvp gid (c :: cs) sid).personal_best_distance ∧
    (get_player_combined_stats pvp events gid (c :: cs) sid).servers_played =
      (accumBase pvp gid (c :: cs) sid).servers_played ∧
    (get_player_combined_stats pvp events gid (c :: cs) sid).kdr =
      (if 0 < (accumBase pvp gid (c :: cs) sid).deaths then
        ((accumBase pvp gid (c :: cs) sid).kills : ℚ) /
          ((accumBase pvp gid (c :: cs) sid).deaths : ℚ)
      else ((accumBase pvp gid (c :: cs) sid).kills : ℚ)) := by
  simp only [get_player_combined_stats, List.isEmpty_cons, Bool.false_eq_true, if_false]
  split <;> split <;> split <;> simp

/-! ## Claim C1: the KDR formula -/

/-- C1: in every result of `get_player_combined_stats`, `kdr` equals
kills / deaths when the summed deaths are positive, equals the kill count
(as a rational, modelling Python's `float(kills)`) when deaths are zero and
kills positive, and equals `0.0` when both are zero (stats.py lines
122-126). -/
theorem claim_kdr_formula (pvp : List PvpSummary) (events : List KillEvent)
    (gid : Int) (chars : List String) (sid : Option String) :
    (0 < (get_player_combined_stats pvp events gid chars sid).deaths →
      (get_player_combined_stats pvp events gid chars sid).kdr =
        ((get_player_combined_stats pvp events gid chars sid).kills : ℚ) /
          ((get_player_combined_stats pvp events gid chars sid).deaths : ℚ)) ∧
    ((get_player_combined_stats pvp events gid chars sid).deaths = 0 →
      0 < (get_player_combined_stats pvp events gid chars sid).kills →
      (get_player_combined_stats pvp events gid chars sid).kdr =
        ((get_player_combined_stats pvp events gid chars sid).kills : ℚ)) ∧
    ((get_player_combined_stats pvp events gid chars sid).deaths = 0 →
      (get_player_combined_stats pvp events gid chars sid).kills = 0 →
      (get_player_combined_stats pvp events gid chars sid).kdr = 0) := by
  cases chars with
  | nil => simp [get_player_combined_stats, initialStats]
  | cons c cs =>
    obtain ⟨hk, hd, -, -, -, -, hkdr⟩ := gpcs_core pvp events gid c cs sid
    refine ⟨?_, ?_, ?_⟩
    · intro hpos
      rw [hd] at hpos
      rw [hkdr, if_pos hpos, hk, hd]
    · intro h0 _
      rw [hd] at h0
      rw [hkdr, if_neg (by omega), hk]
    · intro h0 hk0
      rw [hd] at h0
      rw [hk] at hk0
      rw [hkdr, if_neg (by omega), hk0]
      norm_num

/-- Witness for C1 at two concrete stores: one with deaths = 2 and kills = 4
(kdr = 2), one with deaths = 0 and kills = 3 (kdr = 3). -/
theorem claim_kdr_formula_witness :
    (get_player_combined_stats [⟨1, "A", "S1", 4, 2, 0, 0, 0⟩] [] 1 ["A"] none).kdr = 2 ∧
    (get_player_combined_stats [⟨1, "A", "S1", 3, 0, 0, 0, 0⟩] [] 1 ["A"] none).kdr = 3 := by
  constructor
  · have h := (claim_kdr_formula [⟨1, "A", "S1", 4, 2, 0, 0, 0⟩] [] 1 ["A"] none).1
      (by decide)
    rw [h, show (get_player_combined_stats [⟨1, "A", "S1", 4, 2, 0, 0, 0⟩] [] 1
        ["A"] none).kills = 4 from by decide,
      show (get_player_combined_stats [⟨1, "A", "S1", 4, 2, 0, 0, 0⟩] [] 1
        ["A"] none).deaths = 2 from by decide]
    norm_num
  · have h := (claim_kdr_formula [⟨1, "A", "S1", 3, 0, 0, 0, 0⟩] [] 1 ["A"] none).2.1
      (by decide) (by decide)
    rw [h, show (get_player_combined_stats [⟨1, "A", "S1", 3, 0, 0, 0, 0⟩] [] 1
        ["A"] none).kills = 3 from by decide]
    norm_num

/-! ## Claim C6: servers_played counts summary records -/

/-- C6: `servers_played` is the total number of summary records found across
all the player's characters — a record count, not a distinct-server count,
so two records of one character (or two on the same server) count as two
(stats.py line 112 increments once per record fetched). -/
theorem claim_servers_played (pvp : List PvpSummary) (events : List KillEvent)
    (gid : Int) (chars : List String) (sid : Option String) :
    (get_player_combined_stats pvp events gid chars sid).servers_played =
      summaryCount pvp gid chars sid := by
  cases chars with
  | nil => simp [get_player_combined_stats, initialStats, summaryCount]
  | cons c cs =>
    obtain ⟨-, -, -, -, -, hs, -⟩ := gpcs_core pvp events gid c cs sid
    rw [hs, accumBase_servers]

/-! ## Claim C7: empty character list -/

/-- C7: with an empty character list, `get_player_combined_stats` returns the
all-zero/empty `CombinedStats` (the early return of stats.py lines 83-85);
the function is total, so no error is raised. -/
theorem claim_empty_character_list (pvp : List PvpSummary) (events : List KillEvent)
    (gid : Int) (sid : Option String) :
    get_player_combined_stats pvp events gid [] sid = initialStats ∧
    (get_player_combined_stats pvp events gid [] sid).kills = 0 ∧
    (get_player_combined_stats pvp events gid [] sid).deaths = 0 ∧
    (get_player_combined_stats pvp events gid [] sid).suicides = 0 ∧
    (get_player_combined_stats pvp events gid [] sid).kdr = 0 ∧
    (get_player_combined_stats pvp events gid [] sid).best_streak = 0 ∧
    (get_player_combined_stats pvp events gid [] sid).personal_best_distance = 0 ∧
    (get_player_combined_stats pvp events gid [] sid).servers_played = 0 ∧
    (get_player_combined_stats pvp events gid [] sid).favorite_weapon = none ∧
    (get_player_combined_stats pvp events gid [] sid).rival = none ∧
    (get_player_combined_stats pvp events gid [] sid).nemesis = none ∧
    (get_player_combined_stats pvp events gid [] sid).weapon_stats = [] := by
  simp [get_player_combined_stats, initialStats]

/-! ## Claim C10: permutation invariance of the numeric fields -/

theorem gpcs_perm {pvp1 pvp2 : List PvpSummary} (h : pvp1.Perm pvp2)
    (events : List KillEvent) (gid : Int) (chars : List String) (sid : Option String) :
    get_player_combined_stats pvp1 events gid chars sid =
      get_player_combined_stats pvp2 events gid chars sid := by
  simp only [get_player_combined_stats, accumBase_perm h gid chars sid]

/-- C10: the numeric fields of the aggregation result are invariant under a
permutation of the order in which the store returns the summary records,
each being a sum, count or maximum over the records seen. -/
theorem claim_numeric_perm_invariant {pvp1 pvp2 : List PvpSummary}
    (events : List KillEvent) (gid : Int) (chars : List String) (sid : Option String)
    (h : pvp1.Perm pvp2) :
    (get_player_combined_stats pvp1 events gid chars sid).kills =
      (get_player_combined_stats pvp2 events gid chars sid).kills ∧
    (get_player_combined_stats pvp1 events gid chars sid).deaths =
      (get_player_combined_stats pvp2 events gid chars sid).deaths ∧
    (get_player_combined_stats pvp1 events gid chars sid).suicides =
      (get_player_combined_stats pvp2 events gid chars sid).suicides ∧
    (get_player_combined_stats pvp1 events gid chars sid).servers_played =
      (get_player_combined_stats pvp2 events gid chars sid).servers_played ∧
    (get_player_combined_stats pvp1 events gid chars sid).best_streak =
      (get_player_combined_stats pvp2 events gid chars sid).best_streak ∧
    (get_player_combined_stats pvp1 events gid chars sid).personal_best_distance =
      (get_player_combined_stats pvp2 events gid chars sid).personal_best_distance := by
  rw [gpcs_perm h events gid chars sid]
  exact ⟨rfl, rfl, rfl, rfl, rfl, rfl⟩

/-- Witness for C10: two concrete stores that are permutations of each other
(two summary records swapped). -/
theorem claim_numeric_perm_invariant_witness :
    (get_player_combined_stats [⟨1, "A", "S1", 4, 2, 1, 7, 0⟩, ⟨1, "A", "S2", 5, 3, 0, 2, 9⟩]
        [] 1 ["A"] none).kills =
      (get_player_combined_stats [⟨1, "A", "S2", 5, 3, 0, 2, 9⟩, ⟨1, "A", "S1", 4, 2, 1, 7, 0⟩]
        [] 1 ["A"] none).kills ∧
    (get_player_combined_stats [⟨1, "A", "S1", 4, 2, 1, 7, 0⟩, ⟨1, "A", "S2", 5, 3, 0, 2, 9⟩]
        [] 1 ["A"] none).best_streak =
      (get_player_combined_stats [⟨1, "A", "S2", 5, 3, 0, 2, 9⟩, ⟨1, "A", "S1", 4, 2, 1, 7, 0⟩]
        [] 1 ["A"] none).best_streak := by
  have h := @claim_numeric_perm_invariant
    [⟨1, "A", "S1", 4, 2, 1, 7, 0⟩, ⟨1, "A", "S2", 5, 3, 0, 2, 9⟩]
    [⟨1, "A", "S2", 5, 3, 0, 2, 9⟩, ⟨1, "A", "S1", 4, 2, 1, 7, 0⟩] [] 1 ["A"] none
    (List.Perm.swap (⟨1, "A", "S2", 5, 3, 0, 2, 9⟩ : PvpSummary)
      (⟨1, "A", "S1", 4, 2, 1, 7, 0⟩ : PvpSummary) [])
  exact ⟨h.1, h.2.2.2.2.1⟩

/-! ## Claim C4: the weapon tally -/

/-- `d.get(k, 0)` on an insertion-ordered dict modelled as an association
list: value at the first occurrence of `k`, or `0`. -/
def countOf (m : List (String × Nat)) (k : String) : Nat :=
  match m with
  | [] => 0
  | p :: ps => if p.1 = k then p.2 else countOf ps k

theorem countOf_tallyAdd_self (m : List (String × Nat)) (k : String) :
    countOf (tallyAdd m k) k = countOf m k + 1 := by
  induction m with
  | nil => simp [tallyAdd, countOf]
  | cons p ps ih =>
    by_cases h : p.1 = k <;> simp [tallyAdd, countOf, h, ih]

theorem countOf_tallyAdd_ne (m : List (String × Nat)) {k k' : String} (h : k ≠ k') :
    countOf (tallyAdd m k) k' = countOf m k' := by
  induction m with
  | nil => simp [tallyAdd, countOf, h]
  | cons p ps ih =>
    by_cases hp : p.1 = k
    · simp [tallyAdd, countOf, hp, h]
    · simp only [tallyAdd, hp, if_false, countOf]
      by_cases hp' : p.1 = k' <;> simp [hp', ih]

/-- The inner event loop of `_calculate_weapon_stats` (stats.py lines
166-170): its effect on the count of one weapon `w`. -/
theorem weapon_fold_count (l : List KillEvent) (m : List (String × Nat)) (w : String) :
    countOf (l.foldl (fun m e =>
        if e.weapon ∈ suicideWeapons then m else tallyAdd m e.weapon) m) w =
      countOf m w +
        (if w ∈ suicideWeapons then 0 else (l.filter (fun e => e.weapon == w)).length) := by
  induction l generalizing m with
  | nil => simp
  | cons e t ih =>
    simp only [List.foldl_cons]
    by_cases hs : e.weapon ∈ suicideWeapons
    · rw [if_pos hs, ih]
      by_cases hw : w ∈ suicideWeapons
      · simp [hw]
      · have hne : ¬ (e.weapon == w) = true := by
          simp only [beq_iff_eq]
          intro hEq
          exact hw (hEq ▸ hs)
        simp [hw, List.filter_cons, hne]
    · rw [if_neg hs]
      by_cases hew : e.weapon = w
      · subst hew
        have hw : ¬ e.weapon ∈ suicideWeapons := hs
        rw [ih, countOf_tallyAdd_self]
        simp [hw, List.filter_cons]
        omega
      · rw [ih, countOf_tallyAdd_ne m hew]
        have hne : ¬ (e.weapon == w) = true := by simpa using hew
        by_cases hw : w ∈ suicideWeapons
        · simp [hw]
        · simp [hw, List.filter_cons, hne]

/-- C4: the weapon-frequency tally of `_calculate_weapon_stats` counts, per
weapon `w`, exactly the kill events whose suicide flag is false, whose
killer is one of the characters (with the guild and optional server filter
of the query), whose weapon is `w`, and with `w` not one of the three
reserved suicide/fall identifiers: flagged suicides never enter the query's
results, and reserved weapon identifiers are skipped even when unflagged
(stats.py lines 154-170). -/
theorem claim_weapon_tally (events : List KillEvent) (gid : Int) (chars : List String)
    (sid : Option String) (w : String) :
    countOf (weaponCounts events gid chars sid) w =
      (chars.map (fun ch =>
        (events.filter (fun e =>
          e.guild_id == gid && e.killer == ch && e.is_suicide == false &&
            serverOk sid e.server_id && e.weapon == w &&
            !(decide (w ∈ suicideWeapons)))).length)).sum := by
  have perChar : ∀ ch : String,
      (if w ∈ suicideWeapons then 0
        else ((findKillsBy events gid ch sid).filter (fun e => e.weapon == w)).length) =
      (events.filter (fun e =>
          e.guild_id == gid && e.killer == ch && e.is_suicide == false &&
            serverOk sid e.server_id && e.weapon == w &&
            !(decide (w ∈ suicideWeapons)))).length := by
    intro ch
    by_cases hw : w ∈ suicideWeapons
    · simp [hw, List.filter_eq_nil_iff]
    · rw [if_neg hw, findKillsBy, List.filter_filter]
      congr 1
      apply List.filter_congr
      intro e _
      simp [hw, Bool.and_comm]
  have key : ∀ (cs : List String) (m : List (String × Nat)),
      countOf (cs.foldl (fun m ch =>
        (findKillsBy events gid ch sid).foldl (fun m e =>
          if e.weapon ∈ suicideWeapons then m else tallyAdd m e.weapon) m) m) w =
      countOf m w +
        (cs.map (fun ch =>
          if w ∈ suicideWeapons then 0
          else ((findKillsBy events gid ch sid).filter (fun e => e.weapon == w)).length)).sum := by
    intro cs
    induction cs with
    | nil => intro m; simp
    | cons c t ih =>
      intro m
      simp only [List.foldl_cons, List.map_cons, List.sum_cons]
      rw [ih, weapon_fold_count]
      omega
  have := key chars []
  rw [weaponCounts]
  rw [this]
  simp only [countOf, Nat.zero_add]
  congr 1
  exact List.map_congr_left (fun ch _ => perChar ch)

/-! ## Claim C5: rival and nemesis -/

theorem tallyAdd_forall_keys {P : String → Prop} {m : List (String × Nat)} {k : String}
    (hm : ∀ p ∈ m, P p.1) (hk : P k) : ∀ p ∈ tallyAdd m k, P p.1 := by
  induction m with
  | nil =>
    intro p hp
    simp only [tallyAdd, List.mem_singleton] at hp
    subst hp
    exact hk
  | cons q qs ih =>
    intro p hp
    rw [tallyAdd] at hp
    split at hp
    · rcases List.mem_cons.mp hp with h | h
      · subst h
        exact hm q (List.mem_cons_self q qs)
      · exact hm p (List.mem_cons_of_mem q h)
    · rcases List.mem_cons.mp hp with h | h
      · subst h
        exact hm p (List.mem_cons_self p qs)
      · exact ih (fun r hr => hm r (List.mem_cons_of_mem q hr)) p h

/-- The running best of `max(keys, key=...)`: it is the start or a list
element, and its count dominates the start's and every element's count. -/
theorem foldl_best_spec (l : List (String × Nat)) (b : String × Nat) :
    (l.foldl (fun best q => if q.2 > best.2 then q else best) b = b ∨
      l.foldl (fun best q => if q.2 > best.2 then q else best) b ∈ l) ∧
    b.2 ≤ (l.foldl (fun best q => if q.2 > best.2 then q else best) b).2 ∧
    ∀ q ∈ l, q.2 ≤ (l.foldl (fun best q => if q.2 > best.2 then q else best) b).2 := by
  induction l generalizing b with
  | nil => simp
  | cons x t ih =>
    simp only [List.foldl_cons]
    by_cases hx : x.2 > b.2
    · obtain ⟨hmem, hb, hall⟩ := ih x
      rw [if_pos hx]
      refine ⟨?_, by omega, ?_⟩
      · rcases hmem with h | h
        · exact Or.inr (by simp [h])
        · exact Or.inr (by simp [h])
      · intro q hq
        rcases List.mem_cons.mp hq with h | h
        · subst h; exact hb
        · exact hall q h
    · obtain ⟨hmem, hb, hall⟩ := ih b
      rw [if_neg hx]
      refine ⟨?_, hb, ?_⟩
      · rcases hmem with h | h
        · exact Or.inl h
        · exact Or.inr (by simp [h])
      · intro q hq
        rcases List.mem_cons.mp hq with h | h
        · subst h; omega
        · exact hall q h

theorem argmaxFirst_spec {l : List (String × Nat)} {p : String × Nat}
    (h : argmaxFirst l = some p) : p ∈ l ∧ ∀ q ∈ l, q.2 ≤ p.2 := by
  cases l with
  | nil => cases h
  | cons q qs =>
    simp only [argmaxFirst, Option.some.injEq] at h
    obtain ⟨hmem, hq, hall⟩ := foldl_best_spec qs q
    subst h
    constructor
    · rcases hmem with heq | hmem2
      · rw [heq]
        exact List.mem_cons_self q qs
      · exact List.mem_cons_of_mem q hmem2
    · intro r hr
      rcases List.mem_cons.mp hr with h | h
      · subst h
        exact hq
      · exact hall r h

theorem killsAgainst_keys (events : List KillEvent) (gid : Int) (chars : List String)
    (sid : Option String) : ∀ p ∈ killsAgainst events gid chars sid, p.1 ∉ chars := by
  have inner : ∀ (l : List KillEvent) (m : List (String × Nat)),
      (∀ p ∈ m, p.1 ∉ chars) →
      ∀ p ∈ l.foldl (fun m e =>
          if e.victim ≠ "" ∧ e.victim ∉ chars then tallyAdd m e.victim else m) m,
        p.1 ∉ chars := by
    intro l
    induction l with
    | nil => intro m hm; simpa using hm
    | cons e t ih =>
      intro m hm
      simp only [List.foldl_cons]
      apply ih
      split
      · next h => exact @tallyAdd_forall_keys (fun x => x ∉ chars) m e.victim hm h.2
      · exact hm
  have outer : ∀ (cs : List String) (m : List (String × Nat)),
      (∀ p ∈ m, p.1 ∉ chars) →
      ∀ p ∈ cs.foldl (fun m ch =>
          (findKillsBy events gid ch sid).foldl (fun m e =>
            if e.victim ≠ "" ∧ e.victim ∉ chars then tallyAdd m e.victim else m) m) m,
        p.1 ∉ chars := by
    intro cs
    induction cs with
    | nil => intro m hm; simpa using hm
    | cons c t ih =>
      intro m hm
      simp only [List.foldl_cons]
      exact ih _ (inner _ m hm)
  simpa only [killsAgainst] using outer chars [] (by simp)

theorem deathsTo_keys (events : List KillEvent) (gid : Int) (chars : List String)
    (sid : Option String) : ∀ p ∈ deathsTo events gid chars sid, p.1 ∉ chars := by
  have inner : ∀ (l : List KillEvent) (m : List (String × Nat)),
      (∀ p ∈ m, p.1 ∉ chars) →
      ∀ p ∈ l.foldl (fun m e =>
          if e.killer ≠ "" ∧ e.killer ∉ chars then tallyAdd m e.killer else m) m,
        p.1 ∉ chars := by
    intro l
    induction l with
    | nil => intro m hm; simpa using hm
    | cons e t ih =>
      intro m hm
      simp only [List.foldl_cons]
      apply ih
      split
      · next h => exact @tallyAdd_forall_keys (fun x => x ∉ chars) m e.killer hm h.2
      · exact hm
  have outer : ∀ (cs : List String) (m : List (String × Nat)),
      (∀ p ∈ m, p.1 ∉ chars) →
      ∀ p ∈ cs.foldl (fun m ch =>
          (findDeathsOf events gid ch sid).foldl (fun m e =>
            if e.killer ≠ "" ∧ e.killer ∉ chars then tallyAdd m e.killer else m) m) m,
        p.1 ∉ chars := by
    intro cs
    induction cs with
    | nil => intro m hm; simpa using hm
    | cons c t ih =>
      intro m hm
      simp only [List.foldl_cons]
      exact ih _ (inner _ m hm)
  simpa only [deathsTo] using outer chars [] (by simp)

theorem gpcs_rival (pvp : List PvpSummary) (events : List KillEvent) (gid : Int)
    (c : String) (cs : List String) (sid : Option String) :
    (get_player_combined_stats pvp events gid (c :: cs) sid).rival =
      argmaxFirst (killsAgainst events gid (c :: cs) sid) := by
  have hbase := (accumBase_untouched pvp gid (c :: cs) sid).2.2.2.2.1
  simp only [get_player_combined_stats, List.isEmpty_cons, Bool.false_eq_true, if_false]
  split <;> split <;> split <;> simp_all [List.isEmpty_iff, argmaxFirst]

theorem gpcs_nemesis (pvp : List PvpSummary) (events : List KillEvent) (gid : Int)
    (c : String) (cs : List String) (sid : Option String) :
    (get_player_combined_stats pvp events gid (c :: cs) sid).nemesis =
      argmaxFirst (deathsTo events gid (c :: cs) sid) := by
  have hbase := (accumBase_untouched pvp gid (c :: cs) sid).2.2.2.2.2
  simp only [get_player_combined_stats, List.isEmpty_cons, Bool.false_eq_true, if_false]
  split <;> split <;> split <;> simp_all [List.isEmpty_iff, argmaxFirst]

/-- C5: the rival tally (victims of the player's non-suicide kills) and the
nemesis tally (killers of the player's characters in non-suicide events)
never contain one of the player's own linked character names (stats.py
lines 202, 220); and whenever the `rival` / `nemesis` fields are set, they
hold an entry of the respective tally whose count dominates every entry —
the victim/killer with the highest tally together with that tally as
`rival_kills` / `nemesis_deaths` (lines 224-230). -/
theorem claim_rival_nemesis (pvp : List PvpSummary) (events : List KillEvent)
    (gid : Int) (chars : List String) (sid : Option String) :
    (∀ p ∈ killsAgainst events gid chars sid, p.1 ∉ chars) ∧
    (∀ p ∈ deathsTo events gid chars sid, p.1 ∉ chars) ∧
    (∀ v n, (get_player_combined_stats pvp events gid chars sid).rival = some (v, n) →
      (v, n) ∈ killsAgainst events gid chars sid ∧
        ∀ q ∈ killsAgainst events gid chars sid, q.2 ≤ n) ∧
    (∀ v n, (get_player_combined_stats pvp events gid chars sid).nemesis = some (v, n) →
      (v, n) ∈ deathsTo events gid chars sid ∧
        ∀ q ∈ deathsTo events gid chars sid, q.2 ≤ n) := by
  refine ⟨killsAgainst_keys events gid chars sid, deathsTo_keys events gid chars sid, ?_, ?_⟩
  · intro v n h
    cases chars with
    | nil => simp [get_player_combined_stats, initialStats] at h
    | cons c cs =>
      rw [gpcs_rival] at h
      exact argmaxFirst_spec h
  · intro v n h
    cases chars with
    | nil => simp [get_player_combined_stats, initialStats] at h
    | cons c cs =>
      rw [gpcs_nemesis] at h
      exact argmaxFirst_spec h

/-- Witness for C5 at a concrete store: one non-suicide kill of "A" against
"V" makes ("V", 1) the rival entry of the tally. -/
theorem claim_rival_nemesis_witness :
    ("V", 1) ∈ killsAgainst [⟨1, "S1", "A", "V", "AK47", false⟩] 1 ["A"] none := by
  have h := (claim_rival_nemesis [] [⟨1, "S1", "A", "V", "AK47", false⟩] 1 ["A"] none).2.2.1
    "V" 1 (by decide)
  exact h.1

/-! ## Claim C2: the outer exception handler -/

/-- Python's duck typing lets the `player_characters` argument of
`get_player_combined_stats` be any iterable; the per-character `try` of
stats.py lines 89-120 covers only the loop *body*, so an exception raised by
the iteration itself escapes to the outer handler.  `CharIter.ok` is a
well-behaved list; `CharIter.failAfter pre` is an iterable that yields the
characters of `pre` and then raises. -/
inductive CharIter where
  | ok (chars : List String)
  | failAfter (pre : List String)
  deriving DecidableEq, Repr

/-- `get_player_combined_stats` run on a possibly-faulty character iterable.
On `ok chars` this is the normal execution.  On `failAfter pre` the guard of
line 83 passes (an iterable object is truthy), the loop accumulates the
summaries of the characters of `pre`, the iteration then raises, and the
`except` of stats.py lines 141-145 catches it and returns `combined_stats`
— the same dictionary object that was being mutated, with whatever totals
were accumulated before the failure and with `kdr`, the weapon fields and
the rival/nemesis fields still at their initial values. -/
def get_player_combined_stats_run (pvp : List PvpSummary) (events : List KillEvent)
    (gid : Int) (it : CharIter) (sid : Option String) : CombinedStats :=
  match it with
  | .ok chars => get_player_combined_stats pvp events gid chars sid
  | .failAfter pre => accumBase pvp gid pre sid

/-- C2 counterexample: a store holding one summary with 5 kills for
character "A", and an iterable that raises after yielding "A".  The outer
handler catches the exception, but the returned `combined_stats` carries the
already-accumulated totals (kills = 5): it is *not* the fully-zeroed record
the claim promises. -/
theorem claim_outer_handler_counterexample :
    (get_player_combined_stats_run [⟨1, "A", "S1", 5, 0, 0, 0, 0⟩] [] 1
      (CharIter.failAfter ["A"]) none).kills = 5 ∧
    get_player_combined_stats_run [⟨1, "A", "S1", 5, 0, 0, 0, 0⟩] [] 1
      (CharIter.failAfter ["A"]) none ≠ initialStats := by
  constructor
  · decide
  · intro h
    have : (get_player_combined_stats_run [⟨1, "A", "S1", 5, 0, 0, 0, 0⟩] [] 1
        (CharIter.failAfter ["A"]) none).kills = initialStats.kills := by rw [h]
    revert this
    decide

/-- C2 as amended: when the outer aggregation raises (modelled by the
iteration failing after the prefix `pre`), the exception is caught and the
function returns the `combined_stats` accumulated so far — `kdr` still 0.0
and the weapon/rival/nemesis fields still empty, the counters holding the
partial sums over `pre`; the result is the fully-zeroed record exactly when
the failure happened before any character was processed (`pre = []`). -/
theorem claim_outer_handler_amended (pvp : List PvpSummary) (events : List KillEvent)
    (gid : Int) (pre : List String) (sid : Option String) :
    (get_player_combined_stats_run pvp events gid (CharIter.failAfter pre) sid).kdr = 0 ∧
    (get_player_combined_stats_run pvp events gid (CharIter.failAfter pre) sid).favorite_weapon
      = none ∧
    (get_player_combined_stats_run pvp events gid (CharIter.failAfter pre) sid).weapon_stats
      = [] ∧
    (get_player_combined_stats_run pvp events gid (CharIter.failAfter pre) sid).rival = none ∧
    (get_player_combined_stats_run pvp events gid (CharIter.failAfter pre) sid).nemesis = none ∧
    (get_player_combined_stats_run pvp events gid (CharIter.failAfter pre) sid).kills =
      (pre.map (fun ch => ((findSummaries pvp gid ch sid).map PvpSummary.kills).sum)).sum ∧
    (pre = [] →
      get_player_combined_stats_run pvp events gid (CharIter.failAfter pre) sid =
        initialStats) := by
  obtain ⟨hkdr, -, hfav, hws, hriv, hnem⟩ := accumBase_untouched pvp gid pre sid
  refine ⟨hkdr, hfav, hws, hriv, hnem, ?_, ?_⟩
  · exact accumBase_kills pvp gid pre sid
  · intro h
    subst h
    rfl

/-- Witness for the amended C2 at `pre = []`: a failure before any character
is processed does return the fully-zeroed record. -/
theorem claim_outer_handler_amended_witness :
    get_player_combined_stats_run [⟨1, "A", "S1", 5, 0, 0, 0, 0⟩] [] 1
      (CharIter.failAfter []) none = initialStats := by
  exact (claim_outer_handler_amended [⟨1, "A", "S1", 5, 0, 0, 0, 0⟩] [] 1 [] none).2.2.2.2.2.2
    rfl

/-! ## Claim C3: the compare command and its store reads -/

/-- A document of the linked-accounts collection (`get_linked_player`):
guild, account id, and the `linked_characters` list.  A stored document is a
non-empty Python dict (it carries at least its identifier keys), so the
truthiness test `not player_data` of stats.py line 392/399 is modelled as
"no document found"; an existing document with an *empty* character list
still passes that test. -/
structure LinkedPlayer where
  guild_id : Int
  discord_id : Int
  linked_characters : List String
  deriving DecidableEq, Repr

/-- `db_manager.get_linked_player(guild_id, user_id)`: the first matching
document, if any. -/
def get_linked_player (linked : List LinkedPlayer) (gid uid : Int) : Option LinkedPlayer :=
  (linked.filter (fun d => d.guild_id == gid && d.discord_id == uid)).head?

/-- One store read issued by the compare flow, tagged with what it concerns:
a linked-player lookup for a user id, or a per-character read of the summary
collection / the kill-event collection (killer side, then victim side)
issued by `get_player_combined_stats` and its two sub-computations. -/
inductive StatsReadOp where
  | linkedRead (uid : Int)
  | summariesRead (ch : String)
  | weaponKillsRead (ch : String)
  | rivalKillsRead (ch : String)
  | rivalDeathsRead (ch : String)
  deriving DecidableEq, Repr

/-- The sequence of store reads issued by one `get_player_combined_stats`
call (stats.py line 99 per character, then line 164 per character, then
lines 198 and 216 per character). -/
def aggregateReads (chars : List String) : List StatsReadOp :=
  chars.map StatsReadOp.summariesRead ++
    chars.map StatsReadOp.weaponKillsRead ++
    chars.flatMap (fun c => [StatsReadOp.rivalKillsRead c, StatsReadOp.rivalDeathsRead c])

/-- Outcome of the `compare` command handler (stats.py lines 373-426). -/
inductive CompareOutcome where
  | selfCompare
  | notFoundA
  | notFoundB
  | success (s1 s2 : CombinedStats)
  deriving DecidableEq, Repr

/-- The `compare` command flow (stats.py lines 373-426), paired with the
trace of store reads it issues, in order.  Note the source fetches *both*
linked-player documents (lines 389-390) before checking either (lines
392-404); the not-found branches therefore already carry both linked
reads.  The aggregation calls of lines 409-410 pass no server filter. -/
def compare_run (linked : List LinkedPlayer) (pvp : List PvpSummary)
    (events : List KillEvent) (gid uid1 uid2 : Int) :
    CompareOutcome × List StatsReadOp :=
  if uid1 == uid2 then (CompareOutcome.selfCompare, [])
  else
    match get_linked_player linked gid uid1, get_linked_player linked gid uid2 with
    | none, _ =>
      (CompareOutcome.notFoundA, [StatsReadOp.linkedRead uid1, StatsReadOp.linkedRead uid2])
    | some _, none =>
      (CompareOutcome.notFoundB, [StatsReadOp.linkedRead uid1, StatsReadOp.linkedRead uid2])
    | some d1, some d2 =>
      (CompareOutcome.success
        (get_player_combined_stats pvp events gid d1.linked_characters none)
        (get_player_combined_stats pvp events gid d2.linked_characters none),
       [StatsReadOp.linkedRead uid1, StatsReadOp.linkedRead uid2] ++
         aggregateReads d1.linked_characters ++ aggregateReads d2.linked_characters)

/-- C3 counterexample.  First conjunct: with user 1 unlinked and user 2
linked, compare surfaces not-found for user 1 — but the trace *does* contain
a store read concerning user 2 (the `get_linked_player` call of stats.py
line 390 runs before the check of line 392), contradicting "no store read
concerning B is ever issued".  Second conjunct: when user 1 has a linked
record whose character list is empty, the handler does *not* surface
not-found for A (lines 392 checks only that a document exists), again
contradicting the claim. -/
theorem claim_compare_counterexample :
    ((compare_run [⟨1, 2, ["B1"]⟩] [] [] 1 1 2).2.contains (StatsReadOp.linkedRead 2)
        = true ∧
      (compare_run [⟨1, 2, ["B1"]⟩] [] [] 1 1 2).1 = CompareOutcome.notFoundA) ∧
    (compare_run [⟨1, 1, []⟩, ⟨1, 2, ["B1"]⟩] [] [] 1 1 2).1 ≠
      CompareOutcome.notFoundA := by
  refine ⟨⟨by decide, by decide⟩, ?_⟩
  intro h
  revert h
  decide

/-- C3 as amended: when the requesting user A has no linked-player record,
`compare` surfaces not-found for A specifically — but only after the
linked-player lookup for B has also been issued; no summary or kill-event
read for B (or anyone) occurs.  (An existing record with an empty character
list does not trigger the not-found branch.) -/
theorem claim_compare_amended (linked : List LinkedPlayer) (pvp : List PvpSummary)
    (events : List KillEvent) (gid uidA uidB : Int) (hne : uidA ≠ uidB)
    (hA : get_linked_player linked gid uidA = none) :
    compare_run linked pvp events gid uidA uidB =
      (CompareOutcome.notFoundA,
        [StatsReadOp.linkedRead uidA, StatsReadOp.linkedRead uidB]) := by
  rw [compare_run, if_neg (by simpa using hne), hA]

/-- Witness for the amended C3: user 1 unlinked, user 2 linked. -/
theorem claim_compare_amended_witness :
    compare_run [⟨1, 2, ["B1"]⟩] [] [] 1 1 2 =
      (CompareOutcome.notFoundA, [StatsReadOp.linkedRead 1, StatsReadOp.linkedRead 2]) := by
  exact claim_compare_amended [⟨1, 2, ["B1"]⟩] [] [] 1 1 2 (by decide) (by decide)

/-! ## Claim C8: resolving a raw string target -/

/-- One element of the regex pattern that `resolve_player` builds:
stats.py line 52 interpolates the *unescaped* trimmed target between `^`
and `$`, so a literal character of the target is a literal regex atom and a
`.` of the target is the any-character atom.  The store's regex engine is
an external collaborator (spec §1); this models the anchored case-
insensitive semantics of the pattern fragment consisting of literal
characters and `.` — the fragment exercised by the theorems below — with
every other character treated as a literal. -/
inductive RElem where
  | lit (c : Char)
  | dot
  deriving DecidableEq, Repr

/-- The pattern body built from the trimmed target (the text between the
`^` and `$` anchors of stats.py line 52). -/
def patElems (cs : List Char) : List RElem :=
  cs.map (fun c => if c = '.' then RElem.dot else RElem.lit c)

/-- Matching one pattern element against one character, with the `$options:
i` case-insensitivity of stats.py line 52. -/
def relemMatch : RElem → Char → Bool
  | RElem.dot, _ => true
  | RElem.lit c, d => c.toLower == d.toLower

/-- Anchored match (`^pattern$`): the pattern must consume the whole
subject. -/
def reFull : List RElem → List Char → Bool
  | [], [] => true
  | [], _ :: _ => false
  | _ :: _, [] => false
  | e :: es, c :: cs => relemMatch e c && reFull es cs

/-- Python's `str.strip()` (stats.py line 45): drop leading and trailing
whitespace.  (Implemented over the character list so that it evaluates by
kernel reduction; `String.trim` of the standard library is defined by
well-founded recursion.) -/
def pyStrip (s : String) : String :=
  String.mk (((s.toList.dropWhile Char.isWhitespace).reverse.dropWhile
    Char.isWhitespace).reverse)

/-- The string branch of `resolve_player` (stats.py lines 43-60): trim the
target and fail on empty; otherwise query `pvp_data` for documents of the
guild whose `player_name` matches the anchored case-insensitive regex built
from the target, and return the first match with a truthy name as both the
single-element character list and the display name. -/
def resolve_player_str (pvp : List PvpSummary) (gid : Int) (target : String) :
    Option (List String × String) :=
  let target_name := pyStrip target
  if target_name = "" then none
  else
    match (pvp.filter (fun d =>
        d.guild_id == gid && reFull (patElems target_name.toList) d.player_name.toList)).find?
        (fun d => d.player_name != "") with
    | some d => some ([d.player_name], d.player_name)
    | none => none

/-- Case-insensitive exact equality of two strings — the comparison the
claim (and spec §4.1) describes. -/
def ciEqStr (a b : String) : Bool :=
  a.toList.map Char.toLower == b.toList.map Char.toLower

/-- The regex metacharacters of the store's pattern syntax. -/
def regexMetachars : List Char :=
  ['.', '*', '+', '?', '(', ')', '[', ']', '\x7b', '\x7d', '\\', '|', '^', '$']

/-- A target free of regex metacharacters, for which the interpolated
pattern is a pure literal. -/
def noRegexMetachars (s : String) : Bool :=
  s.toList.all (fun c => !(regexMetachars.contains c))

/-- A pattern of literal characters matches exactly the case-insensitively
equal subjects. -/
theorem reFull_literal_iff (p : List Char) (hp : ∀ c ∈ p, c ≠ '.') (s : List Char) :
    reFull (patElems p) s = true ↔ p.map Char.toLower = s.map Char.toLower := by
  induction p generalizing s with
  | nil => cases s <;> simp [patElems, reFull]
  | cons c cs ih =>
    cases s with
    | nil => simp [patElems, reFull]
    | cons d ds =>
      have hc : c ≠ '.' := hp c (List.mem_cons_self c cs)
      have iht := ih (fun x hx => hp x (List.mem_cons_of_mem c hx)) ds
      rw [patElems] at iht
      simp only [patElems, List.map_cons, reFull, relemMatch, if_neg hc,
        Bool.and_eq_true, beq_iff_eq, List.cons.injEq]
      rw [iht]

/-- C8 counterexample: the target "Alph." (trimmed, non-empty) is resolved
to the stored character "Alpha" — the interpolated `.` matched the final
letter — although "Alph." and "Alpha" are not case-insensitively equal, so
the search is not the case-insensitive *exact* match the claim states. -/
theorem claim_resolve_counterexample :
    resolve_player_str [⟨1, "Alpha", "S1", 0, 0, 0, 0, 0⟩] 1 "Alph." =
      some (["Alpha"], "Alpha") ∧
    ciEqStr "Alph." "Alpha" = false := by
  constructor <;> decide

/-- C8 as amended: trimming and the empty-target failure are as stated, and
for a target free of regex metacharacters the interpolated pattern behaves
exactly as a case-insensitive exact match: the result is the first
guild-matching document with a truthy name that is case-insensitively equal
to the trimmed target, returned as both the single-element character list
and the display name (none if there is no such document).  Targets
containing metacharacters are instead interpreted as part of the regex
pattern (see the counterexample). -/
theorem claim_resolve_amended (pvp : List PvpSummary) (gid : Int) (target : String) :
    ((pyStrip target) = "" → resolve_player_str pvp gid target = none) ∧
    ((pyStrip target) ≠ "" → noRegexMetachars (pyStrip target) = true →
      resolve_player_str pvp gid target =
        match (pvp.filter (fun d =>
            d.guild_id == gid && ciEqStr d.player_name (pyStrip target))).find?
            (fun d => d.player_name != "") with
        | some d => some ([d.player_name], d.player_name)
        | none => none) := by
  constructor
  · intro h
    rw [resolve_player_str]
    simp [h]
  · intro hne hmeta
    have hdot : ∀ c ∈ (pyStrip target).toList, c ≠ '.' := by
      intro c hc heq
      subst heq
      have h1 : ('.' ∉ regexMetachars) := by
        simpa using (List.all_eq_true.mp hmeta) '.' hc
      exact h1 (by decide)
    have hpt : ∀ name : String,
        reFull (patElems (pyStrip target).toList) name.toList = ciEqStr name (pyStrip target) := by
      intro name
      have h := reFull_literal_iff (pyStrip target).toList hdot name.toList
      cases hr : reFull (patElems (pyStrip target).toList) name.toList
      · rw [hr] at h
        symm
        rw [ciEqStr, beq_eq_false_iff_ne]
        intro heq
        exact absurd (h.mpr heq.symm) (by simp)
      · rw [hr] at h
        symm
        rw [ciEqStr, beq_iff_eq]
        exact (h.mp rfl).symm
    rw [resolve_player_str]
    simp only [if_neg hne]
    have hfil : pvp.filter (fun d =>
        d.guild_id == gid && reFull (patElems (pyStrip target).toList) d.player_name.toList) =
      pvp.filter (fun d => d.guild_id == gid && ciEqStr d.player_name (pyStrip target)) := by
      apply List.filter_congr
      intro d _
      rw [hpt d.player_name]
    rw [hfil]

/-- Witness for the amended C8 (the spec's end-to-end scenario 4): the
literal target "ghost" with no matching record resolves to not-found. -/
theorem claim_resolve_amended_witness :
    resolve_player_str [⟨1, "Alpha", "S1", 0, 0, 0, 0, 0⟩] 1 "ghost" = none := by
  have h := (claim_resolve_amended [⟨1, "Alpha", "S1", 0, 0, 0, 0, 0⟩] 1 "ghost").2
    (by decide) (by decide)
  rw [h]
  decide

/-! ## Claim C9: the embed factory

Embedding of `src/bot/utils/embed_factory.py`.  Python's dynamically typed
payload dictionaries are modelled as association lists of `PyVal`; an
operation that can raise a Python exception returns `Except String`
(the string being the exception class, immaterial to the claims), and a
`try/except` block is a `match` on that result.  Interactions with the
filesystem (`_get_asset_path` together with the `Path.exists` guards) are
abstracted as an oracle `String → Option (String × String)` giving the
resolved (path, filename) of an asset key, or `none` when nothing is found;
`random.choice` over a non-empty static pool is modelled by an externally
supplied pick index taken modulo the pool size.  The library's embed object
stringifies field values (`str()`), modelled by `pyStr`, which is total. -/

/-- A Python value as it occurs in embed payloads. -/
inductive PyVal where
  | vstr (s : String)
  | vint (n : Int)
  | vbool (b : Bool)
  | vnone
  deriving DecidableEq, Repr

/-- `data.get(key, default)` on a payload dictionary. -/
def pget (d : List (String × PyVal)) (k : String) (dflt : PyVal) : PyVal :=
  match d.find? (fun p => p.1 == k) with
  | some p => p.2
  | none => dflt

/-- Python truthiness of a payload value. -/
def pyTruthy : PyVal → Bool
  | PyVal.vstr s => !(s == "")
  | PyVal.vint n => !(n == 0)
  | PyVal.vbool b => b
  | PyVal.vnone => false

/-- Python `str()` of a payload value (total). -/
def pyStr : PyVal → String
  | PyVal.vstr s => s
  | PyVal.vint n => toString n
  | PyVal.vbool b => if b then "True" else "False"
  | PyVal.vnone => "None"

/-- `value.lower()`: raises `AttributeError` unless the value is a string. -/
def pyLower : PyVal → Except String String
  | PyVal.vstr s => Except.ok (String.mk (s.toList.map Char.toLower))
  | _ => Except.error "AttributeError"

/-- Python `str.title()` over a character list: uppercase each letter that
follows a non-letter, lowercase the rest. -/
def titleCaseGo : Bool → List Char → List Char
  | _, [] => []
  | prevAlpha, c :: cs =>
    (if c.isAlpha then (if prevAlpha then c.toLower else c.toUpper) else c) ::
      titleCaseGo c.isAlpha cs

def pyTitleStr (s : String) : String := String.mk (titleCaseGo false s.toList)

/-- `value.title()`: raises `AttributeError` unless the value is a string. -/
def pyTitle : PyVal → Except String String
  | PyVal.vstr s => Except.ok (pyTitleStr s)
  | _ => Except.error "AttributeError"

/-- `value.replace('_', ' ').title()` (the mission `state` formatting of
embed_factory.py line 503). -/
def pyReplaceUnderscoreTitle : PyVal → Except String String
  | PyVal.vstr s =>
    Except.ok (pyTitleStr (String.mk (s.toList.map (fun c => if c = '_' then ' ' else c))))
  | _ => Except.error "AttributeError"

def digitsToNat (cs : List Char) : Nat :=
  cs.foldl (fun n c => n * 10 + (c.toNat - 48)) 0

/-- Python `float(string)` on plain decimal literals (optional sign, digits,
optional fractional part); exponents and the infinity/nan spellings are out
of the modelled fragment.  `none` models `ValueError`. -/
def strToRat? (s : String) : Option ℚ :=
  let cs := (pyStrip s).toList
  let signAndDigits : ℚ × List Char :=
    match cs with
    | '-' :: t => (-1, t)
    | '+' :: t => (1, t)
    | _ => (1, cs)
  let sign := signAndDigits.1
  let body := signAndDigits.2
  let intPart := body.takeWhile Char.isDigit
  let rest := body.dropWhile Char.isDigit
  match rest with
  | [] => if intPart.isEmpty then none else some (sign * digitsToNat intPart)
  | '.' :: frac =>
    if frac.all Char.isDigit ∧ ¬(intPart.isEmpty ∧ frac.isEmpty) then
      some (sign * ((digitsToNat intPart : ℚ) +
        (digitsToNat frac : ℚ) / ((10 : ℚ) ^ frac.length)))
    else none
  | _ => none

/-- Python `float(value)`: numbers convert, booleans convert as 0/1,
`None` raises `TypeError`, non-numeric strings raise `ValueError`. -/
def pyFloat : PyVal → Except String ℚ
  | PyVal.vint n => Except.ok (n : ℚ)
  | PyVal.vbool b => Except.ok (if b then 1 else 0)
  | PyVal.vnone => Except.error "TypeError"
  | PyVal.vstr s =>
    match strToRat? s with
    | some q => Except.ok q
    | none => Except.error "ValueError"

/-- Python `value >= m` against an int literal: raises `TypeError` unless
the value is numeric (`bool` is an `int` subclass). -/
def pyGeInt : PyVal → Int → Except String Bool
  | PyVal.vint n, m => Except.ok (m ≤ n)
  | PyVal.vbool b, m => Except.ok (m ≤ (if b then (1 : Int) else 0))
  | _, _ => Except.error "TypeError"

/-- Thousands grouping over a reversed digit list (`f"{n:,}"`). -/
def commaRevGo (k : Nat) : List Char → List Char
  | [] => []
  | [c] => [c]
  | c :: cs =>
    if k = 3 then c :: ',' :: commaRevGo 1 cs else c :: commaRevGo (k + 1) cs

/-- Python `f"{value:,}"`: comma-grouped for ints (and bools, as 0/1);
raises for strings (`ValueError`) and `None` (`TypeError`). -/
def pyFmtComma : PyVal → Except String String
  | PyVal.vint n =>
    Except.ok ((if n < 0 then "-" else "") ++
      String.mk ((commaRevGo 1 (toString n.natAbs).toList.reverse).reverse))
  | PyVal.vbool b => Except.ok (if b then "1" else "0")
  | PyVal.vstr _ => Except.error "ValueError"
  | PyVal.vnone => Except.error "TypeError"

/-- Python's `sub in s` substring test. -/
def containsSubGo (sub : List Char) : List Char → Bool
  | [] => sub.isEmpty
  | c :: cs => sub.isPrefixOf (c :: cs) || containsSubGo sub cs

def containsSub (s sub : String) : Bool := containsSubGo sub.toList s.toList
/-- The class-level `THEMED_MESSAGES` pools of embed_factory.py lines
105-333 (title, description pairs per message type). -/
def themedMessagesTable (k : String) : Option (List (String × String)) :=
  match k with
  | "connection_join" =>
    some [
      ("Reinforcements Arrive", "A new operative has entered the battlefield"),
      ("Squad Member Online", "Fresh backup has joined the mission"),
      ("New Arrival Detected", "Another survivor enters the hostile zone"),
      ("Operative Deployment", "Military personnel now active in the field"),
      ("Backup Has Arrived", "Additional support is now operational"),
      ("New Fighter Enlisted", "Another warrior joins the conflict"),
      ("Mercenary Activated", "A hired gun has entered the combat zone"),
      ("Soldier Reporting In", "Military unit now deployed and ready"),
      ("Combat Unit Online", "Tactical operator is now field-ready"),
      ("Fresh Blood Arrives", "New combatant has entered the warzone"),
      ("Unit Deployed", "New tactical asset has entered the field"),
      ("Ally Reinforcement", "Additional friendly forces have arrived"),
      ("Combat Ready", "New operative is mission-ready and armed"),
      ("Field Agent Active", "Special forces unit now operational"),
      ("Strike Team Member", "Elite operator has joined the battlefield"),
      ("Tactical Insert", "Specialist unit deployed to combat zone"),
      ("Boots on Ground", "Infantry unit has entered the operational area"),
      ("Mission Support", "Additional resources now available"),
      ("Operative Online", "Field agent reporting for active duty"),
      ("Battle Ready", "New combatant prepared for engagement")
    ]
  | "connection_leave" =>
    some [
      ("Extraction Confirmed", "Operative has successfully left the battlefield"),
      ("Squad Member Offline", "Team member has concluded their mission"),
      ("Departure Logged", "Fighter has withdrawn from the combat zone"),
      ("Mission Complete", "Operative extraction has been completed"),
      ("Radio Silence", "Communication lost with field operative"),
      ("Tactical Withdrawal", "Strategic retreat executed successfully"),
      ("End of Deployment", "Tour of duty has been concluded"),
      ("Evacuation Complete", "Personnel safely removed from danger zone"),
      ("Mission Concluded", "Operative has finished their assignment"),
      ("Fade to Black", "Last transmission received from departing unit"),
      ("Stand Down", "Operative has been relieved from active duty"),
      ("Exfiltration Success", "Agent successfully extracted from the field"),
      ("Mission Wrap", "Operational tour has reached completion"),
      ("Signal Lost", "Connection terminated with field operative"),
      ("RTB Confirmed", "Return to base mission accomplished"),
      ("Off Duty", "Operator has concluded combat operations"),
      ("Ghost Protocol", "Agent has vanished from the battlefield"),
      ("Mission End", "Tactical assignment successfully completed"),
      ("Withdrawal Complete", "Strategic pullback executed flawlessly"),
      ("Final Transmission", "Last communication received from operative")
    ]
  | "killfeed_kill" =>
    some [
      ("Hostile Eliminated", "Another survivor has fallen to superior tactics"),
      ("Combat Victory", "The wasteland claims another warrior"),
      ("Kill Confirmed", "Survival of the fittest in action"),
      ("Target Down", "One less threat in the contaminated zone"),
      ("Elimination Recorded", "The strong prey upon the weak"),
      ("Hostile Neutralized", "Another soul lost to the harsh reality"),
      ("Combat Success", "Violence solves yet another dispute"),
      ("Enemy Down", "The apocalypse continues to thin the herd"),
      ("Confirmed Kill", "Natural selection at its finest"),
      ("Threat Eliminated", "The wasteland\u0027s brutal law prevails"),
      ("Fatal Encounter", "Another casualty of the contaminated world"),
      ("Engagement Resolved", "Superior firepower claims another victim"),
      ("Combat Casualty", "The harsh reality of survival warfare"),
      ("Tactical Victory", "Strategic elimination successfully executed"),
      ("Hostile Terminated", "Enemy combatant permanently neutralized"),
      ("Lethal Force Applied", "Deadly encounter resolved decisively"),
      ("Target Acquired", "Precision strike eliminates hostile threat"),
      ("Enemy Neutralized", "Opposition force permanently disabled"),
      ("Combat Effective", "Deadly engagement concluded successfully"),
      ("Elimination Successful", "Hostile target removed from battlefield")
    ]
  | "killfeed_suicide" =>
    some [
      ("Manual Uninstall", "Someone pressed the wrong button, it didn\u0027t end well"),
      ("Critical Error", "Task failed successfully, permanently"),
      ("Self-Service Checkout", "Took the express lane to the afterlife"),
      ("User Malfunction", "Hardware failure: operator not included"),
      ("Instant Karma", "When life gives you grenades, don\u0027t pull the pin"),
      ("Oops Moment", "That wasn\u0027t the reload button"),
      ("Final Bug Report", "Error 404: Player not found"),
      ("Creative Problem Solving", "Found a permanent solution to temporary problems"),
      ("Unscheduled Logout", "Rage quit taken to the extreme"),
      ("Self-Destruct Sequence", "Someone skipped the safety briefing"),
      ("Operator Error", "RTFM should have been mandatory reading"),
      ("Epic Fail", "Achievement unlocked: Ultimate facepalm"),
      ("Darwin Award", "Natural selection working as intended"),
      ("Auto-Delete", "Self-removal protocol activated successfully"),
      ("Friendly Fire", "Plot twist: the call was coming from inside"),
      ("System Crash", "Blue screen of death, literally"),
      ("User Input Error", "Keyboard error: Press F to pay respects"),
      ("Accidental Activation", "Read the instructions, they said"),
      ("Critical Failure", "Murphy\u0027s Law strikes again"),
      ("Self-Termination", "Took \u0027going out with a bang\u0027 literally")
    ]
  | "killfeed_fall" =>
    some [
      ("Gravity Check Failed", "Physics had different ideas about that flight plan"),
      ("Unexpected Landing", "Ground came up faster than expected"),
      ("Terminal Velocity Achieved", "Discovered the hard way that humans can\u0027t fly"),
      ("Altitude Adjustment", "What goes up, comes down... hard"),
      ("Flight Plan Rejected", "Air traffic control: Gravity"),
      ("Gravity Assisted Exit", "Isaac Newton\u0027s law still applies in the apocalypse"),
      ("Rapid Descent Protocol", "Took the scenic route down"),
      ("Uncontrolled Landing", "Forgot to pack a parachute for that trip"),
      ("Ground Impact Event", "Learned that falling with style still hurts"),
      ("Elevation Miscalculation", "Overestimated their frequent flyer miles"),
      ("Vertical Velocity Error", "Speed limit exceeded in the downward direction"),
      ("Parachute Malfunction", "Backup chute was also out of order"),
      ("Aerodynamic Failure", "Turns out humans are terrible at flying"),
      ("Ground Proximity Alert", "Warning came a little too late"),
      ("Emergency Landing", "Forgot to request clearance from the ground"),
      ("Atmospheric Re-entry", "Came in too hot without heat shields"),
      ("Cliff Notes", "Took a shortcut that went straight down"),
      ("Diving Accident", "Olympic scoring: Perfect 10 for form"),
      ("Flight Training", "Lesson one: Landing is usually optional"),
      ("Altitude Sickness", "Cure was found at ground level")
    ]
  | "mission_ready" =>
    some [
      ("Objective Available", "New tactical mission is ready for deployment"),
      ("Mission Briefing", "High-value target area now accessible"),
      ("Operation Greenlight", "Strategic objective cleared for engagement"),
      ("Target Acquired", "Priority mission zone now active"),
      ("Go Signal Received", "Mission parameters have been established"),
      ("Deployment Authorized", "Tactical operation ready for execution"),
      ("Mission Active", "Strategic objective is now operational"),
      ("Objective Online", "Target zone cleared for engagement"),
      ("Operation Commenced", "Mission parameters are now live"),
      ("Battle Orders", "Tactical engagement zone is active"),
      ("Assignment Ready", "High-priority operation awaiting execution"),
      ("Mission Package", "Strategic directive now available for action"),
      ("Objective Briefing", "Critical mission zone has been activated"),
      ("Tactical Deployment", "Elite operation ready for specialized units"),
      ("Priority Target", "High-value objective now accessible"),
      ("Operation Alert", "Strategic mission parameters established"),
      ("Mission Protocol", "Tactical engagement zone now operational"),
      ("Directive Active", "Combat mission ready for deployment"),
      ("Strategic Objective", "Priority operation cleared for execution"),
      ("Combat Assignment", "Tactical mission zone now available"),
      ("Field Operation", "Specialized mission ready for elite forces"),
      ("Tactical Brief", "Strategic operation parameters confirmed"),
      ("Mission Clearance", "High-priority objective zone activated"),
      ("Operation Status", "Critical mission deployment authorized"),
      ("Assignment Brief", "Tactical operation ready for execution")
    ]
  | "airdrop_incoming" =>
    some [
      ("Supply Drop Inbound", "Aerial resupply package approaching"),
      ("Cargo Drop Detected", "Supply aircraft on final approach"),
      ("Air Support Incoming", "Logistics drop confirmed inbound"),
      ("Supply Bird Approaching", "Aerial cargo delivery in progress"),
      ("Package Delivery", "High-altitude supply drop initiated"),
      ("Resupply Mission", "Aerial logistics package incoming"),
      ("Sky Delivery", "Supply aircraft making final approach"),
      ("Cargo Inbound", "Aerial resupply mission in progress"),
      ("Supply Drop Active", "Logistics delivery now approaching"),
      ("Air Logistics", "Supply package incoming from above"),
      ("Cargo Flight", "Aerial supply mission on final vector"),
      ("Drop Zone Active", "Supply aircraft approaching designated area"),
      ("Supply Vector", "Logistics delivery confirmed inbound"),
      ("Aerial Package", "High-altitude cargo drop in progress"),
      ("Sky Cargo", "Supply aircraft on delivery approach"),
      ("Logistics Drop", "Aerial resupply package incoming"),
      ("Supply Mission", "Cargo aircraft confirmed on approach"),
      ("Drop Incoming", "Aerial delivery system activated"),
      ("Cargo Delivery", "Supply drop mission in final approach"),
      ("Air Supply", "Logistics aircraft inbound with cargo")
    ]
  | "helicrash_event" =>
    some [
      ("Aircraft Down", "Helicopter has crash-landed in the area"),
      ("Emergency Landing", "Rotorcraft made unscheduled ground contact"),
      ("Heli Down", "Aviation incident has been reported"),
      ("Crash Site Active", "Helicopter wreckage detected"),
      ("Bird Down", "Rotary aircraft suffered catastrophic failure"),
      ("Emergency Descent", "Helicopter made forced landing"),
      ("Aviation Incident", "Rotorcraft emergency landing confirmed"),
      ("Chopper Down", "Helicopter crash site now active"),
      ("Flight Emergency", "Aviation emergency landing reported"),
      ("Rotor Failure", "Helicopter suffered mechanical failure"),
      ("Forced Landing", "Rotorcraft emergency descent completed"),
      ("Aviation Emergency", "Helicopter distress situation confirmed"),
      ("Crash Landing", "Aircraft emergency touchdown reported"),
      ("Wreckage Detected", "Helicopter debris field located"),
      ("Emergency Beacon", "Aircraft distress signal activated"),
      ("Mayday Situation", "Helicopter emergency landing confirmed"),
      ("Flight Incident", "Rotorcraft operational failure reported"),
      ("Aircraft Emergency", "Helicopter forced landing executed"),
      ("Crash Zone", "Aviation incident site now active"),
      ("Emergency Touchdown", "Helicopter distress landing completed")
    ]
  | "trader_arrival" =>
    some [
      ("Black Market Open", "Underground dealer has arrived"),
      ("Merchant Arrival", "Independent trader now conducting business"),
      ("Dealer Active", "Black market vendor is open for trade"),
      ("Trade Opportunity", "Special merchant has arrived"),
      ("Underground Market", "Illegal arms dealer now available"),
      ("Contraband Available", "Black market trader is open"),
      ("Shadow Merchant", "Underground dealer conducting business"),
      ("Arms Dealer Active", "Weapons merchant now available"),
      ("Black Market Vendor", "Illegal trader has set up shop"),
      ("Underworld Trading", "Shadow market is now operational"),
      ("Commerce Active", "Independent trader open for business"),
      ("Vendor Available", "Specialized merchant now accessible"),
      ("Trade Post Open", "Commercial vendor ready for transactions"),
      ("Market Vendor", "Underground trader conducting sales"),
      ("Dealer Network", "Black market contact now available"),
      ("Commerce Hub", "Trading post now operational"),
      ("Merchant Contact", "Underground dealer ready for business"),
      ("Trade Terminal", "Commercial vendor now accessible"),
      ("Supply Contact", "Independent trader open for deals"),
      ("Exchange Active", "Underground market now operational")
    ]
  | "vehicle_spawn" =>
    some [
      ("Vehicle Deployed", "New transportation asset now available"),
      ("Motor Pool Active", "Vehicle has been deployed to the field"),
      ("Transport Ready", "New vehicle asset operational"),
      ("Wheels Up", "Transportation unit now available"),
      ("Vehicle Online", "Mobile asset deployed and ready"),
      ("Transport Arrival", "New vehicle has entered the battlefield"),
      ("Motor Asset", "Transportation resource now operational"),
      ("Vehicle Ready", "Mobile unit deployed for field use"),
      ("Transport Active", "New vehicle asset available"),
      ("Mobile Unit", "Transportation deployed to combat zone")
    ]
  | "vehicle_delete" =>
    some [
      ("Vehicle Lost", "Transportation asset no longer operational"),
      ("Transport Down", "Vehicle has been removed from service"),
      ("Motor Pool Loss", "Vehicle asset no longer available"),
      ("Wheels Down", "Transportation unit out of commission"),
      ("Vehicle Offline", "Mobile asset removed from operation"),
      ("Transport Removed", "Vehicle no longer battlefield ready"),
      ("Motor Loss", "Transportation resource unavailable"),
      ("Vehicle Destroyed", "Mobile unit eliminated from service"),
      ("Transport Inactive", "Vehicle asset removed from field"),
      ("Mobile Down", "Transportation no longer operational")
    ]
  | _ => none

/-- The `KILLFEED_ATMOSPHERIC_MESSAGES` pools of embed_factory.py lines
65-102, with the `.get(..., [])` default folded in. -/
def killfeedAtmosphericMessages (k : String) : List String :=
  match k with
  | "kill" => [
      "> Another heartbeat silenced beneath the ash sky.",
      "> No burial, no name — just silence where a soul once stood.",
      "> Left no echo. Just scattered gear and cooling blood.",
      "> Cut from the world like thread from a fraying coat.",
      "> Hunger, cold, bullets — it could\u0027ve been any of them. It was enough.",
      "> Marked, hunted, forgotten. In that order.",
      "> Their fire went out before they even knew they were burning.",
      "> A last breath swallowed by wind and war.",
      "> The price of survival paid in someone else\u0027s blood.",
      "> The map didn\u0027t change. The player did."
    ]
  | "suicide" => [
      "> Hit \"relocate\" like it was the snooze button. Got deleted.",
      "> Tactical redeployment... into the abyss.",
      "> Rage respawned and logic respawned with it.",
      "> Wanted a reset. Got a reboot straight to the void.",
      "> Pressed something. Paid everything.",
      "> Who needs enemies when you\u0027ve got bad decisions?",
      "> Alt+F4\u0027d themselves into Valhalla.",
      "> Strategic death — poorly executed.",
      "> Fast travel without a destination.",
      "> Confirmed: the dead menu is not a safe zone."
    ]
  | "fall" => [
      "> Thought they could make it. The ground disagreed.",
      "> Airborne ambition. Terminal results.",
      "> Tried flying. Landed poorly.",
      "> Gravity called. They answered — headfirst.",
      "> Believed in themselves. Gravity didn\u0027t.",
      "> From rooftops to regret in under two seconds.",
      "> The sky opened. The floor closed.",
      "> Survival instincts took a coffee break.",
      "> Feet first into a bad decision.",
      "> Their plan had one fatal step too many."
    ]
  | _ => []

/-- The `COLORS` theme table of embed_factory.py lines 25-40. -/
def colorsTable (k : String) : Option Nat :=
  match k with
  | "connection" => some 0xd38a
  | "killfeed" => some 0xff6b6b
  | "mission" => some 0x4ecdc4
  | "airdrop" => some 0xffd93d
  | "helicrash" => some 0xff8c42
  | "trader" => some 0x6c5ce7
  | "vehicle" => some 0x74b9ff
  | "bounty" => some 0xe84393
  | "economy" => some 0xb894
  | "leaderboard" => some 0x984e3
  | "error" => some 0xe74c3c
  | "success" => some 0x27ae60
  | "warning" => some 0xf39c12
  | "info" => some 0x3498db
  | _ => none

/-- The `mission_mappings` table of `normalize_mission_name`
(embed_factory.py lines 917-951). -/
def missionMappings (k : String) : Option String :=
  match k with
  | "GA_Airport_mis_01_SFPSACMission" => some "Airport Mission #1"
  | "GA_Airport_mis_02_SFPSACMission" => some "Airport Mission #2"
  | "GA_Airport_mis_03_SFPSACMission" => some "Airport Mission #3"
  | "GA_Airport_mis_04_SFPSACMission" => some "Airport Mission #4"
  | "GA_Military_02_Mis1" => some "Military Base Mission #2"
  | "GA_Military_03_Mis_01" => some "Military Base Mission #3"
  | "GA_Military_04_Mis1" => some "Military Base Mission #4"
  | "GA_Beregovoy_Mis1" => some "Beregovoy Settlement Mission"
  | "GA_Settle_05_ChernyLog_Mis1" => some "Cherny Log Settlement Mission"
  | "GA_Ind_01_m1" => some "Industrial Zone Mission #1"
  | "GA_Ind_02_Mis_1" => some "Industrial Zone Mission #2"
  | "GA_KhimMash_Mis_01" => some "Chemical Plant Mission #1"
  | "GA_KhimMash_Mis_02" => some "Chemical Plant Mission #2"
  | "GA_Bunker_01_Mis1" => some "Underground Bunker Mission"
  | "GA_Sawmill_01_Mis1" => some "Sawmill Mission #1"
  | "GA_Settle_09_Mis_1" => some "Settlement Mission #9"
  | "GA_Military_04_Mis_2" => some "Military Base Mission #4B"
  | "GA_PromZone_6_Mis_1" => some "Industrial Zone Mission #6"
  | "GA_PromZone_Mis_01" => some "Industrial Zone Mission A"
  | "GA_PromZone_Mis_02" => some "Industrial Zone Mission B"
  | "GA_Kamensk_Ind_3_Mis_1" => some "Kamensk Industrial Mission"
  | "GA_Kamensk_Mis_1" => some "Kamensk City Mission #1"
  | "GA_Kamensk_Mis_2" => some "Kamensk City Mission #2"
  | "GA_Kamensk_Mis_3" => some "Kamensk City Mission #3"
  | "GA_Krasnoe_Mis_1" => some "Krasnoe City Mission"
  | "GA_Vostok_Mis_1" => some "Vostok City Mission"
  | "GA_Lighthouse_02_Mis1" => some "Lighthouse Mission #2"
  | "GA_Elevator_Mis_1" => some "Elevator Complex Mission #1"
  | "GA_Elevator_Mis_2" => some "Elevator Complex Mission #2"
  | "GA_Sawmill_02_1_Mis1" => some "Sawmill Mission #2A"
  | "GA_Sawmill_03_Mis_01" => some "Sawmill Mission #3"
  | "GA_Bochki_Mis_1" => some "Barrel Storage Mission"
  | "GA_Dubovoe_0_Mis_1" => some "Dubovoe Resource Mission"
  | _ => none

/-- `_get_themed_message` (embed_factory.py lines 335-346): look the type up
in the pool table with the `[("System Message", "Event occurred")]` default,
then pick one entry (`random.choice`, modelled by the supplied index taken
modulo the non-empty pool's size). -/
def getThemedMessage (messageType : String) (pick : Nat) : String × String :=
  let messages := (themedMessagesTable messageType).getD [("System Message", "Event occurred")]
  messages.getD (pick % messages.length) ("System Message", "Event occurred")

/-- The display object produced by the factory: a `discord.Embed` reduced to
the parts the factory sets. -/
structure EmbedM where
  title : String
  description : String
  color : Nat
  fields : List (String × String)
  thumbnail : Option String
  footer : Option String
  deriving DecidableEq, Repr

/-- A `discord.File` attachment (path and attachment filename). -/
structure FileM where
  path : String
  filename : String
  deriving DecidableEq, Repr

/-- What a call of `EmbedFactory.build` evaluates to: a Python
`(embed, file)` tuple, or — on the fallback paths of the connection,
killfeed and mission builders (embed_factory.py lines 389, 469, 517), which
return `_create_fallback_embed(...)` directly — a bare embed that is not a
tuple at all. -/
inductive BuildResult where
  | pair (e : EmbedM) (f : Option FileM)
  | bare (e : EmbedM)
  deriving DecidableEq, Repr

def BuildResult.isPair : BuildResult → Bool
  | BuildResult.pair _ _ => true
  | BuildResult.bare _ => false

/-- `_create_fallback_embed` (embed_factory.py lines 905-912): info color,
no fields, no footer, no thumbnail. -/
def fallbackEmbed (title desc : String) : EmbedM :=
  { title := title
    description := desc
    color := 0x3498db
    fields := []
    thumbnail := none
    footer := none }

/-- The footer every successful builder sets. -/
def factoryFooter : String := "Powered by Discord.gg/EmeraldServers"

/-- Thumbnail/file handling shared by the builders: when the asset oracle
resolves the key (the `asset_path and asset_path.exists()` guard), attach
the file and point the thumbnail at it. -/
def assetAttach (assets : String → Option (String × String)) (key : String) :
    Option FileM × Option String :=
  match assets key with
  | some (p, fn) => (some ⟨p, fn⟩, some ("attachment://" ++ fn))
  | none => (none, none)

/-- The body of `build_connection_embed` (embed_factory.py lines 349-385);
the surrounding `try` is `build_connection_embed_caught` below.
`data.get('title', '').lower()` raises on a non-string title. -/
def build_connection_embed (assets : String → Option (String × String))
    (pick : Nat) (data : List (String × PyVal)) :
    Except String (EmbedM × Option FileM) := do
  let t ← pyLower (pget data "title" (PyVal.vstr ""))
  let messageType :=
    if containsSub t "arrive" || containsSub t "reinforcements" then "connection_join"
    else "connection_leave"
  let titleDesc := getThemedMessage messageType pick
  let fields :=
    [("Player", pyStr (pget data "player_name" (PyVal.vstr "Unknown Player"))),
     ("Platform", pyStr (pget data "platform" (PyVal.vstr "Unknown"))),
     ("Server", pyStr (pget data "server_name" (PyVal.vstr "Unknown Server")))]
  let att := assetAttach assets "connection"
  pure ({ title := titleDesc.1
          description := titleDesc.2
          color := (colorsTable "connection").getD 0
          fields := fields
          thumbnail := att.2
          footer := some factoryFooter }, att.1)

/-- `build_connection_embed` with its `except` (lines 387-389): a failure
degrades to a *bare* fallback embed, not an (embed, file) tuple. -/
def build_connection_embed_caught (assets : String → Option (String × String))
    (pick : Nat) (data : List (String × PyVal)) : BuildResult :=
  match build_connection_embed assets pick data with
  | Except.ok (e, f) => BuildResult.pair e f
  | Except.error _ => BuildResult.bare (fallbackEmbed "Connection Event" "Player activity recorded")

/-- The body of `build_killfeed_embed` (embed_factory.py lines 392-465):
`weapon.lower()` is only reached — and can only raise — in the suicide
branch; the kill branch instead runs the guarded `float(distance)`
conversion. -/
def build_killfeed_embed (assets : String → Option (String × String))
    (pick pick2 : Nat) (data : List (String × PyVal)) :
    Except String (EmbedM × Option FileM) := do
  let isSuicide := pyTruthy (pget data "is_suicide" (PyVal.vbool false))
  let weaponVal := pget data "weapon" (PyVal.vstr "Unknown")
  if isSuicide then do
    let wl ← pyLower weaponVal
    let fallish := containsSub wl "fall" || containsSub wl "falling"
    let titleDesc := getThemedMessage (if fallish then "killfeed_fall" else "killfeed_suicide") pick
    let msgs := killfeedAtmosphericMessages (if fallish then "fall" else "suicide")
    let atmospheric := if msgs.isEmpty then "" else msgs.getD (pick2 % msgs.length) ""
    let color := if fallish then 0xa855f7 else 0xff0000
    let fields :=
      [("Player", pyStr (pget data "victim" (pget data "player_name" (PyVal.vstr "Unknown")))),
       ("Cause", pyStr weaponVal)]
    let att := assetAttach assets (if containsSub wl "fall" then "falling" else "suicide")
    pure ({ title := titleDesc.1
            description := atmospheric
            color := color
            fields := fields
            thumbnail := att.2
            footer := some factoryFooter }, att.1)
  else do
    let titleDesc := getThemedMessage "killfeed_kill" pick
    let msgs := killfeedAtmosphericMessages "kill"
    let atmospheric := if msgs.isEmpty then "" else msgs.getD (pick2 % msgs.length) ""
    let distanceVal := pget data "distance" (PyVal.vint 0)
    let distFields ← if pyTruthy distanceVal then do
        let d ← pyFloat distanceVal
        pure (if 0 < d then [("Distance", pyStr distanceVal ++ "m")] else [])
      else pure []
    let fields :=
      [("Killer", pyStr (pget data "killer" (PyVal.vstr "Unknown"))),
       ("Victim", pyStr (pget data "victim" (PyVal.vstr "Unknown"))),
       ("Weapon", pyStr weaponVal)] ++ distFields
    let att := assetAttach assets "killfeed"
    pure ({ title := titleDesc.1
            description := atmospheric
            color := 0xffd700
            fields := fields
            thumbnail := att.2
            footer := some factoryFooter }, att.1)

/-- `build_killfeed_embed` with its `except` (lines 467-469). -/
def build_killfeed_embed_caught (assets : String → Option (String × String))
    (pick pick2 : Nat) (data : List (String × PyVal)) : BuildResult :=
  match build_killfeed_embed assets pick pick2 data with
  | Except.ok (e, f) => BuildResult.pair e f
  | Except.error _ => BuildResult.bare (fallbackEmbed "Combat Event" "Combat activity recorded")

/-- `normalize_mission_name` as called with a payload value (embed_factory.py
lines 498, 915-953): the table lookup's default `mission_id.replace('_',
' ').title()` is evaluated eagerly, so a non-string id raises. -/
def pyNormalizeMissionName : PyVal → Except String String
  | PyVal.vstr s =>
    Except.ok ((missionMappings s).getD
      (pyTitleStr (String.mk (s.toList.map (fun c => if c = '_' then ' ' else c)))))
  | _ => Except.error "AttributeError"

/-- The body of `build_mission_embed` (embed_factory.py lines 472-513):
the level comparisons raise on non-numeric levels, `normalize_mission_name`
and the state formatting raise on non-string payloads. -/
def build_mission_embed (assets : String → Option (String × String))
    (pick : Nat) (data : List (String × PyVal)) :
    Except String (EmbedM × Option FileM) := do
  let titleDesc := getThemedMessage "mission_ready" pick
  let levelVal := pget data "level" (PyVal.vint 1)
  let ge5 ← pyGeInt levelVal 5
  let color ←
    if ge5 then pure 0xff0000
    else do
      let ge4 ← pyGeInt levelVal 4
      if ge4 then pure 0xff8c00
      else do
        let ge3 ← pyGeInt levelVal 3
        pure (if ge3 then 0xffd700 else (colorsTable "mission").getD 0)
  let missionName ← pyNormalizeMissionName (pget data "mission_id" (PyVal.vstr ""))
  let status ← pyReplaceUnderscoreTitle (pget data "state" (PyVal.vstr "READY"))
  let fields :=
    [("Mission", missionName),
     ("Difficulty Level", "Level " ++ pyStr levelVal),
     ("Status", status)]
  let att := assetAttach assets "mission"
  pure ({ title := titleDesc.1
          description := titleDesc.2
          color := color
          fields := fields
          thumbnail := att.2
          footer := some factoryFooter }, att.1)

/-- `build_mission_embed` with its `except` (lines 515-517). -/
def build_mission_embed_caught (assets : String → Option (String × String))
    (pick : Nat) (data : List (String × PyVal)) : BuildResult :=
  match build_mission_embed assets pick data with
  | Except.ok (e, f) => BuildResult.pair e f
  | Except.error _ => BuildResult.bare (fallbackEmbed "Mission Update" "Mission status changed")

/-- The `message_type_map` of `build` (embed_factory.py lines 580-584). -/
def messageTypeMap (t : String) : Option String :=
  match t with
  | "airdrop" => some "airdrop_incoming"
  | "helicrash" => some "helicrash_event"
  | "trader" => some "trader_arrival"
  | _ => none

/-- The per-type field population of the generic path of `build`
(embed_factory.py lines 617-631 dispatching to `_add_*_fields`): `.title()`
on the airdrop state, vehicle action and leaderboard stat type raises on
non-strings, as does the `:,` formatting of bounty and economy amounts. -/
def addTypeFields (t : String) (data : List (String × PyVal)) :
    Except String (List (String × String)) :=
  match t with
  | "airdrop" => do
    let status ← pyTitle (pget data "state" (PyVal.vstr "incoming"))
    pure [("Location", pyStr (pget data "location" (PyVal.vstr "Unknown Location"))),
          ("Status", status)]
  | "helicrash" =>
    pure [("Crash Site", pyStr (pget data "location" (PyVal.vstr "Unknown Location"))),
          ("Status", "Crashed")]
  | "trader" =>
    pure [("Location", pyStr (pget data "location" (PyVal.vstr "Unknown Location"))),
          ("Status", "Available")]
  | "vehicle" => do
    let action ← pyTitle (pget data "action" (PyVal.vstr "spawned"))
    pure [("Vehicle", pyStr (pget data "vehicle_type" (PyVal.vstr "Unknown Vehicle"))),
          ("Action", action)]
  | "bounty" => do
    let bounty ← pyFmtComma (pget data "amount" (PyVal.vint 0))
    pure [("Target", pyStr (pget data "target" (PyVal.vstr "Unknown"))),
          ("Bounty", bounty),
          ("Posted By", pyStr (pget data "poster" (PyVal.vstr "Unknown")))]
  | "economy" => do
    let amount ← pyFmtComma (pget data "amount" (PyVal.vint 0))
    let balance ← pyFmtComma (pget data "balance" (PyVal.vint 0))
    let currency := pyStr (pget data "currency" (PyVal.vstr "Emeralds"))
    pure [("Amount", amount ++ " " ++ currency),
          ("New Balance", balance ++ " " ++ currency)]
  | "leaderboard" => do
    let ranking ← pyTitle (pget data "stat_type" (PyVal.vstr "kills"))
    pure [("Server", pyStr (pget data "server_name" (PyVal.vstr "Unknown Server"))),
          ("Ranking By", ranking)]
  | _ => pure []

/-- The generic path of `build` (embed_factory.py lines 579-636). -/
def buildGeneric (assets : String → Option (String × String)) (pick : Nat)
    (embedType : String) (data : List (String × PyVal)) :
    Except String (EmbedM × Option FileM) := do
  let titleDesc :=
    match messageTypeMap embedType with
    | some mt => getThemedMessage mt pick
    | none => (pyStr (pget data "title" (PyVal.vstr "System Event")),
               pyStr (pget data "description" (PyVal.vstr "Event occurred")))
  let att := assetAttach assets embedType
  let fields ← addTypeFields embedType data
  pure ({ title := titleDesc.1
          description := titleDesc.2
          color := (colorsTable embedType).getD ((colorsTable "info").getD 0)
          fields := fields
          thumbnail := att.2
          footer := some factoryFooter }, att.1)

/-- The fallback (embed, None) tuple of `build`'s own `except`
(embed_factory.py lines 638-648): error color, footer set. -/
def genericFallbackEmbed : EmbedM :=
  { title := "System Message"
    description := "An error occurred while creating this embed"
    color := 0xe74c3c
    fields := []
    thumbnail := none
    footer := some factoryFooter }

/-- `EmbedFactory.build` (embed_factory.py lines 565-648): dispatch to the
specialized builders for the connection / killfeed (also `suicide`, `fall`)
/ mission tags — whose internal handlers already catch their failures and
return a bare fallback embed — and otherwise run the generic path under
`build`'s own handler, which degrades to a (fallback embed, None) tuple. -/
def EmbedFactory.build (assets : String → Option (String × String))
    (pick pick2 : Nat) (embedType : String) (data : List (String × PyVal)) :
    BuildResult :=
  if embedType == "connection" then
    build_connection_embed_caught assets pick data
  else if embedType == "killfeed" || embedType == "suicide" || embedType == "fall" then
    build_killfeed_embed_caught assets pick pick2 data
  else if embedType == "mission" then
    build_mission_embed_caught assets pick data
  else
    match buildGeneric assets pick embedType data with
    | Except.ok (e, f) => BuildResult.pair e f
    | Except.error _ => BuildResult.pair genericFallbackEmbed none

/-- C9 counterexample: `build('connection', ...)` with a non-string title
(so that `data.get('title', '').lower()` raises inside
`build_connection_embed`) returns the *bare* fallback embed of line 389 —
not a tuple of an embed and no file attachment as the claim states, since
`_create_fallback_embed` returns only an embed. -/
theorem claim_build_counterexample :
    EmbedFactory.build (fun _ => none) 0 0 "connection" [("title", PyVal.vint 5)] =
      BuildResult.bare (fallbackEmbed "Connection Event" "Player activity recorded") ∧
    (EmbedFactory.build (fun _ => none) 0 0 "connection"
        [("title", PyVal.vint 5)]).isPair = false := by
  constructor <;> rfl

/-- C9 as amended: `EmbedFactory.build` never raises — for every type tag,
payload, asset oracle and message pick it returns a value — and an internal
failure degrades to a fallback: on the generic path (and on every success)
the result is an (embed, file-option) tuple, while a failure inside the
connection, killfeed/suicide/fall or mission builders degrades to a *bare*
generic fallback embed with no file and no tuple structure. -/
theorem claim_build_amended (assets : String → Option (String × String))
    (pick pick2 : Nat) (embedType : String) (data : List (String × PyVal)) :
    (∃ e f, EmbedFactory.build assets pick pick2 embedType data = BuildResult.pair e f) ∨
    ((embedType = "connection" ∨ embedType = "killfeed" ∨ embedType = "suicide" ∨
        embedType = "fall" ∨ embedType = "mission") ∧
      ∃ e, EmbedFactory.build assets pick pick2 embedType data = BuildResult.bare e) := by
  rw [EmbedFactory.build]
  by_cases h1 : embedType = "connection"
  · rw [if_pos (by simp [h1])]
    rw [build_connection_embed_caught]
    cases hb : build_connection_embed assets pick data with
    | ok p => exact Or.inl ⟨p.1, p.2, rfl⟩
    | error err => exact Or.inr ⟨Or.inl h1, _, rfl⟩
  · rw [if_neg (by simpa using h1)]
    by_cases h2 : embedType = "killfeed" ∨ embedType = "suicide" ∨ embedType = "fall"
    · have hcond : (embedType == "killfeed" || embedType == "suicide" ||
          embedType == "fall") = true := by
        rcases h2 with h | h | h <;> simp [h]
      rw [if_pos hcond, build_killfeed_embed_caught]
      cases hb : build_killfeed_embed assets pick pick2 data with
      | ok p => exact Or.inl ⟨p.1, p.2, rfl⟩
      | error err =>
        refine Or.inr ⟨?_, _, rfl⟩
        rcases h2 with h | h | h
        · exact Or.inr (Or.inl h)
        · exact Or.inr (Or.inr (Or.inl h))
        · exact Or.inr (Or.inr (Or.inr (Or.inl h)))
    · have hcond : ¬ ((embedType == "killfeed" || embedType == "suicide" ||
          embedType == "fall") = true) := by
        push_neg at h2
        simp [h2.1, h2.2.1, h2.2.2]
      rw [if_neg hcond]
      by_cases h3 : embedType = "mission"
      · rw [if_pos (by simp [h3])]
        rw [build_mission_embed_caught]
        cases hb : build_mission_embed assets pick data with
        | ok p => exact Or.inl ⟨p.1, p.2, rfl⟩
        | error err =>
          exact Or.inr ⟨Or.inr (Or.inr (Or.inr (Or.inr h3))), _, rfl⟩
      · rw [if_neg (by simpa using h3)]
        cases hb : buildGeneric assets pick embedType data with
        | ok p => exact Or.inl ⟨p.1, p.2, rfl⟩
        | error err => exact Or.inl ⟨genericFallbackEmbed, none, rfl⟩
